import Mathlib

/-!
Verification development for the TrendRadar configuration-resolution layer
(`trendradar/core/loader.py`).

The Python module is shallowly embedded:
* YAML values (`yaml.safe_load` output) become the inductive `YVal`;
  Python `dict.get` on a non-mapping raises `AttributeError`, modelled by
  `Except PyErr`.
* The process environment becomes an association list `Env`; `os.environ.get`
  becomes `envGet`.
* The file system / YAML parser pair used by `load_config` becomes a function
  `String → FileOutcome` (absent file, unparsable content, or parsed value).
* `print` side effects of `_print_notification_sources` are modelled by
  returning the structured summary lines instead of printing them.

`parse_multi_account_config` and `validate_paired_configs` live in
`trendradar/core/config.py`, which is not part of the provided sources; they
are modelled from the specification (sections 4.3 and 4.4) and marked as such.
-/

namespace TrendRadar

/-- Embedding of the values produced by `yaml.safe_load` (and of the Python
values stored in the resolved configuration).  `flt` carries the textual form
of a float literal; floats are only carried through by the loader, never
computed with. -/
inductive YVal where
  | none
  | b (v : Bool)
  | i (v : Int)
  | s (v : String)
  | flt (v : String)
  | list (vs : List YVal)
  | dict (entries : List (String × YVal))
  deriving Repr

/-- Python truthiness (`bool(x)`) for the embedded values.  The float case
only ever sees the literals `1.0` (defaults in the loader), for which the
clause is exact. -/
def truthy : YVal → Bool
  | .none => false
  | .b v => v
  | .i v => v != 0
  | .s v => v != ""
  | .flt v => v != "0.0" && v != "0"
  | .list vs => !vs.isEmpty
  | .dict es => !es.isEmpty

/-- Python exceptions (and one modelling marker) that the embedded loader can
surface. -/
inductive PyErr where
  | fileNotFoundError
  /-- `yaml.safe_load` failed on malformed content. -/
  | yamlError
  /-- `.get` was called on a value that is not a mapping. -/
  | attributeError
  /-- `min` was applied to a non-numeric value. -/
  | typeError
  /-- `parse_multi_account_config` (whose real code is not in the provided
  sources) was applied to a truthy non-string value; the spec defines the
  parser only on strings, so the behaviour is unknown. -/
  | nonStringAccountField
  deriving Repr, DecidableEq

/-- `d.get(key, default)` on a mapping represented as an association list. -/
def yLookupD (es : List (String × YVal)) (key : String) (default : YVal) : YVal :=
  (List.lookup key es).getD default

/-- `v.get(key, default)` on an arbitrary value: raises `AttributeError`
unless `v` is a mapping. -/
def yAttrGet (v : YVal) (key : String) (default : YVal) : Except PyErr YVal :=
  match v with
  | .dict es => .ok (yLookupD es key default)
  | _ => .error .attributeError

/-- Requires a value to be a mapping (the shape under which subsequent
`.get` calls on it succeed). -/
def asDict (v : YVal) : Except PyErr (List (String × YVal)) :=
  match v with
  | .dict es => .ok es
  | _ => .error .attributeError

/-- The process environment: an association list of variable names to
string values (`os.environ`). -/
abbrev Env : Type := List (String × String)

/-- `os.environ.get(key)` — `none` when the variable is unset. -/
def envGet (env : Env) (key : String) : Option String :=
  List.lookup key env

/-! Python string primitives, implemented by structural recursion on the
character list so that every definition evaluates inside the kernel.
(Core `String.trim`, `String.splitOn` etc. are byte-position based and do
not reduce.) -/

/-- Python `str.strip()`: remove leading and trailing whitespace.  (Python
strips the Unicode whitespace class; the ASCII subset handled by
`Char.isWhitespace` is exact for every value in the claims.) -/
def pyStrip (s : String) : String :=
  ⟨((s.data.dropWhile Char.isWhitespace).reverse.dropWhile Char.isWhitespace).reverse⟩

/-- Split a character list at every occurrence of `c` (Python
`str.split(c)` for a one-character separator; the empty string yields a
single empty group). -/
def splitCharList (c : Char) : List Char → List (List Char)
  | [] => [[]]
  | ch :: rest =>
    match splitCharList c rest with
    | [] => [[]]
    | g :: gs => if ch = c then [] :: g :: gs else (ch :: g) :: gs

/-- Python `s.split(c)` for a one-character separator. -/
def pySplitOn (s : String) (c : Char) : List String :=
  (splitCharList c s.data).map (fun l => ⟨l⟩)

/-- Python `s.partition(c)` for a one-character separator: the parts before
and after the first occurrence, or `none` when `c` does not occur (which is
also the `c in s` test). -/
def pyPartitionChar (c : Char) : List Char → Option (List Char × List Char)
  | [] => Option.none
  | ch :: rest =>
    if ch = c then some ([], rest)
    else
      match pyPartitionChar c rest with
      | Option.none => Option.none
      | some (pre, post) => some (ch :: pre, post)

/-- Python `s.startswith(c)` for a one-character prefix. -/
def pyStartsWithChar (s : String) (c : Char) : Bool :=
  match s.data with
  | [] => false
  | x :: _ => x == c

/-- Python `s.endswith(c)` for a one-character suffix. -/
def pyEndsWithChar (s : String) (c : Char) : Bool :=
  match s.data.getLast? with
  | some x => x == c
  | Option.none => false

/-- Decimal digits possibly separated by single underscores, as accepted by
Python's `int()` after the optional sign (tail position: an underscore must
be followed by a digit). -/
def pyDigitsTail : List Char → Bool
  | [] => true
  | '_' :: c :: rest => c.isDigit && pyDigitsTail rest
  | ['_'] => false
  | c :: rest => c.isDigit && pyDigitsTail rest

/-- A non-empty digit group (first character must be a digit). -/
def pyDigitsOk : List Char → Bool
  | [] => false
  | c :: rest => c.isDigit && pyDigitsTail rest

/-- Numeric value of a digit-and-underscore sequence. -/
def pyDigitsVal (l : List Char) : Nat :=
  l.foldl (fun acc c => if c = '_' then acc else acc * 10 + (c.toNat - '0'.toNat)) 0

/-- Model of Python's `int(s)` on an already-stripped string: optional sign,
then decimal digits with optional single-underscore grouping.  (Python also
accepts non-ASCII decimal digits; those never arise in the claims.) -/
def parsePyInt (s : String) : Option Int :=
  match s.data with
  | '+' :: rest => if pyDigitsOk rest then some (pyDigitsVal rest) else Option.none
  | '-' :: rest => if pyDigitsOk rest then some (-(pyDigitsVal rest : Int)) else Option.none
  | rest => if pyDigitsOk rest then some (pyDigitsVal rest) else Option.none

/-- Python's `str.lower()` as a character-wise map (the claims only involve
ASCII values, for which this is exact). -/
def pyLower (s : String) : String :=
  ⟨s.data.map Char.toLower⟩

/-- `_get_env_bool`: `os.environ.get(key, "").strip().lower()`; empty →
`none` (absent), otherwise `some (value in ("true", "1"))`. -/
def _get_env_bool (env : Env) (key : String) : Option Bool :=
  let value := pyLower (pyStrip ((envGet env key).getD ""))
  if value = "" then Option.none
  else some (value == "true" || value == "1")

/-- `_get_env_int`: empty after strip → default; unparsable (`ValueError`)
→ default; otherwise the parsed integer. -/
def _get_env_int (env : Env) (key : String) (default : Int := 0) : Int :=
  let value := pyStrip ((envGet env key).getD "")
  if value = "" then default
  else match parsePyInt value with
    | some n => n
    | Option.none => default

/-- `_get_env_str`: `os.environ.get(key, "").strip() or default`. -/
def _get_env_str (env : Env) (key : String) (default : String := "") : String :=
  let value := pyStrip ((envGet env key).getD "")
  if value = "" then default else value

/-- Python `s or y` where `s` is a string and `y` an arbitrary value. -/
def pyOrStr (s : String) (y : YVal) : YVal :=
  if s ≠ "" then .s s else y

/-- Python `n or y` where `n` is an int and `y` an arbitrary value. -/
def pyOrInt (n : Int) (y : YVal) : YVal :=
  if n ≠ 0 then .i n else y

/-- Setting a variable that is not yet present (`os.environ[key] = value`
is only executed by `_load_dotenv` for absent keys). -/
def envSet (env : Env) (key value : String) : Env :=
  env ++ [(key, value)]

/-- One iteration of the line loop of `_load_dotenv`: strip the line, skip
blanks and `#` comments, split at the first `=`, strip key and value, strip
one layer of matching surrounding quotes, and set the key only when it is
non-empty and not already present. -/
def dotenvStep (acc : Env × Nat) (rawLine : String) : Env × Nat :=
  let line := pyStrip rawLine
  if line = "" || pyStartsWithChar line '#' then acc
  else
    match pyPartitionChar '=' line.data with
    | Option.none => acc  -- no "=" in line
    | some (keyPart, valuePart) =>
      let key := pyStrip ⟨keyPart⟩
      let value := pyStrip ⟨valuePart⟩
      let value :=
        if (pyStartsWithChar value '"' && pyEndsWithChar value '"') ||
           (pyStartsWithChar value (Char.ofNat 39) && pyEndsWithChar value (Char.ofNat 39)) then
          ⟨value.data.tail.dropLast⟩
        else value
      if key ≠ "" && (envGet acc.1 key).isNone then
        (envSet acc.1 key value, acc.2 + 1)
      else acc

/-- `_load_dotenv`, given the lines of an existing `.env` file: folds
`dotenvStep` over the lines, returning the updated environment and the
number of variables loaded. -/
def _load_dotenv (lines : List String) (env : Env) : Env × Nat :=
  lines.foldl dotenvStep (env, 0)

/-! ## Section resolvers

Each `_load_*_config` function of the source first extracts its file
section(s) with `.get` (which can raise `AttributeError`) and then builds a
record merging file values with environment overrides.  The record-building
part (the Python dict literal) is split off into a pure `mk*Config`
function so that the merge logic can be reasoned about without the
`Except` wrapper. -/

/-- Fields produced by `_load_app_config`. -/
structure AppConfig where
  VERSION_CHECK_URL : YVal
  SHOW_VERSION_UPDATE : YVal
  TIMEZONE : YVal
  deriving Repr

/-- The dict literal of `_load_app_config`. -/
def mkAppConfig (env : Env) (sec : List (String × YVal)) : AppConfig where
  VERSION_CHECK_URL := yLookupD sec "version_check_url" (.s "")
  SHOW_VERSION_UPDATE := yLookupD sec "show_version_update" (.b true)
  TIMEZONE := pyOrStr (_get_env_str env "TIMEZONE") (yLookupD sec "timezone" (.s "Asia/Shanghai"))

/-- `_load_app_config`. -/
def _load_app_config (env : Env) (configData : YVal) : Except PyErr AppConfig := do
  let a ← yAttrGet configData "app" (.dict [])
  let sec ← asDict a
  return mkAppConfig env sec

/-- Fields produced by `_load_crawler_config`. -/
structure CrawlerConfig where
  REQUEST_INTERVAL : YVal
  USE_PROXY : YVal
  DEFAULT_PROXY : YVal
  ENABLE_CRAWLER : YVal
  deriving Repr

/-- The dict literal of `_load_crawler_config`. -/
def mkCrawlerConfig (env : Env) (sec : List (String × YVal)) : CrawlerConfig where
  REQUEST_INTERVAL := yLookupD sec "request_interval" (.i 100)
  USE_PROXY := yLookupD sec "use_proxy" (.b false)
  DEFAULT_PROXY := yLookupD sec "default_proxy" (.s "")
  ENABLE_CRAWLER :=
    match _get_env_bool env "ENABLE_CRAWLER" with
    | some v => .b v
    | Option.none => yLookupD sec "enable_crawler" (.b true)

/-- `_load_crawler_config`. -/
def _load_crawler_config (env : Env) (configData : YVal) : Except PyErr CrawlerConfig := do
  let c ← yAttrGet configData "crawler" (.dict [])
  let sec ← asDict c
  return mkCrawlerConfig env sec

/-- Fields produced by `_load_report_config`. -/
structure ReportConfig where
  REPORT_MODE : YVal
  RANK_THRESHOLD : YVal
  SORT_BY_POSITION_FIRST : YVal
  MAX_NEWS_PER_KEYWORD : YVal
  REVERSE_CONTENT_ORDER : YVal
  deriving Repr

/-- The dict literal of `_load_report_config`. -/
def mkReportConfig (env : Env) (sec : List (String × YVal)) : ReportConfig where
  REPORT_MODE := pyOrStr (_get_env_str env "REPORT_MODE") (yLookupD sec "mode" (.s "daily"))
  RANK_THRESHOLD := yLookupD sec "rank_threshold" (.i 10)
  SORT_BY_POSITION_FIRST :=
    match _get_env_bool env "SORT_BY_POSITION_FIRST" with
    | some v => .b v
    | Option.none => yLookupD sec "sort_by_position_first" (.b false)
  MAX_NEWS_PER_KEYWORD :=
    pyOrInt (_get_env_int env "MAX_NEWS_PER_KEYWORD") (yLookupD sec "max_news_per_keyword" (.i 0))
  REVERSE_CONTENT_ORDER :=
    match _get_env_bool env "REVERSE_CONTENT_ORDER" with
    | some v => .b v
    | Option.none => yLookupD sec "reverse_content_order" (.b false)

/-- `_load_report_config`. -/
def _load_report_config (env : Env) (configData : YVal) : Except PyErr ReportConfig := do
  let r ← yAttrGet configData "report" (.dict [])
  let sec ← asDict r
  return mkReportConfig env sec

/-- Fields produced by `_load_notification_config`. -/
structure NotifConfig where
  ENABLE_NOTIFICATION : YVal
  MESSAGE_BATCH_SIZE : YVal
  DINGTALK_BATCH_SIZE : YVal
  FEISHU_BATCH_SIZE : YVal
  BARK_BATCH_SIZE : YVal
  SLACK_BATCH_SIZE : YVal
  BATCH_SEND_INTERVAL : YVal
  FEISHU_MESSAGE_SEPARATOR : YVal
  MAX_ACCOUNTS_PER_CHANNEL : YVal
  deriving Repr

/-- The dict literal of `_load_notification_config`. -/
def mkNotifConfig (env : Env) (sec : List (String × YVal)) : NotifConfig where
  ENABLE_NOTIFICATION :=
    match _get_env_bool env "ENABLE_NOTIFICATION" with
    | some v => .b v
    | Option.none => yLookupD sec "enable_notification" (.b true)
  MESSAGE_BATCH_SIZE := yLookupD sec "message_batch_size" (.i 4000)
  DINGTALK_BATCH_SIZE := yLookupD sec "dingtalk_batch_size" (.i 20000)
  FEISHU_BATCH_SIZE := yLookupD sec "feishu_batch_size" (.i 29000)
  BARK_BATCH_SIZE := yLookupD sec "bark_batch_size" (.i 3600)
  SLACK_BATCH_SIZE := yLookupD sec "slack_batch_size" (.i 4000)
  BATCH_SEND_INTERVAL := yLookupD sec "batch_send_interval" (.flt "1.0")
  FEISHU_MESSAGE_SEPARATOR := yLookupD sec "feishu_message_separator" (.s "---")
  MAX_ACCOUNTS_PER_CHANNEL :=
    pyOrInt (_get_env_int env "MAX_ACCOUNTS_PER_CHANNEL")
      (yLookupD sec "max_accounts_per_channel" (.i 3))

/-- `_load_notification_config`. -/
def _load_notification_config (env : Env) (configData : YVal) : Except PyErr NotifConfig := do
  let n ← yAttrGet configData "notification" (.dict [])
  let sec ← asDict n
  return mkNotifConfig env sec

/-- Fields produced by `_load_push_window_config` (the nested `TIME_RANGE`
dict is flattened into its two keys). -/
structure PushWindowConfig where
  ENABLED : YVal
  TIME_RANGE_START : YVal
  TIME_RANGE_END : YVal
  ONCE_PER_DAY : YVal
  deriving Repr

/-- The dict literal of `_load_push_window_config`. -/
def mkPushWindowConfig (env : Env) (pwSec trSec : List (String × YVal)) : PushWindowConfig where
  ENABLED :=
    match _get_env_bool env "PUSH_WINDOW_ENABLED" with
    | some v => .b v
    | Option.none => yLookupD pwSec "enabled" (.b false)
  TIME_RANGE_START :=
    pyOrStr (_get_env_str env "PUSH_WINDOW_START") (yLookupD trSec "start" (.s "08:00"))
  TIME_RANGE_END :=
    pyOrStr (_get_env_str env "PUSH_WINDOW_END") (yLookupD trSec "end" (.s "22:00"))
  ONCE_PER_DAY :=
    match _get_env_bool env "PUSH_WINDOW_ONCE_PER_DAY" with
    | some v => .b v
    | Option.none => yLookupD pwSec "once_per_day" (.b true)

/-- `_load_push_window_config`. -/
def _load_push_window_config (env : Env) (configData : YVal) : Except PyErr PushWindowConfig := do
  let n ← yAttrGet configData "notification" (.dict [])
  let nSec ← asDict n
  let pwSec ← asDict (yLookupD nSec "push_window" (.dict []))
  let trSec ← asDict (yLookupD pwSec "time_range" (.dict []))
  return mkPushWindowConfig env pwSec trSec

/-- Fields produced by `_load_weight_config`. -/
structure WeightConfig where
  RANK_WEIGHT : YVal
  FREQUENCY_WEIGHT : YVal
  HOTNESS_WEIGHT : YVal
  deriving Repr

/-- The dict literal of `_load_weight_config`. -/
def mkWeightConfig (sec : List (String × YVal)) : WeightConfig where
  RANK_WEIGHT := yLookupD sec "rank_weight" (.flt "1.0")
  FREQUENCY_WEIGHT := yLookupD sec "frequency_weight" (.flt "1.0")
  HOTNESS_WEIGHT := yLookupD sec "hotness_weight" (.flt "1.0")

/-- `_load_weight_config`. -/
def _load_weight_config (configData : YVal) : Except PyErr WeightConfig := do
  let w ← yAttrGet configData "weight" (.dict [])
  let sec ← asDict w
  return mkWeightConfig sec

/-- Fields produced by `_load_storage_config` (the nested `FORMATS`,
`LOCAL`, `REMOTE`, `PULL` dicts are flattened). -/
structure StorageConfig where
  BACKEND : YVal
  FORMATS_SQLITE : YVal
  FORMATS_TXT : YVal
  FORMATS_HTML : YVal
  LOCAL_DATA_DIR : YVal
  LOCAL_RETENTION_DAYS : YVal
  REMOTE_ENDPOINT_URL : YVal
  REMOTE_BUCKET_NAME : YVal
  REMOTE_ACCESS_KEY_ID : YVal
  REMOTE_SECRET_ACCESS_KEY : YVal
  REMOTE_REGION : YVal
  REMOTE_RETENTION_DAYS : YVal
  PULL_ENABLED : YVal
  PULL_DAYS : YVal
  deriving Repr

/-- The dict literal of `_load_storage_config`. -/
def mkStorageConfig (env : Env) (sSec fSec lSec rSec pSec : List (String × YVal)) :
    StorageConfig where
  BACKEND := pyOrStr (_get_env_str env "STORAGE_BACKEND") (yLookupD sSec "backend" (.s "auto"))
  FORMATS_SQLITE := yLookupD fSec "sqlite" (.b true)
  FORMATS_TXT :=
    match _get_env_bool env "STORAGE_TXT_ENABLED" with
    | some v => .b v
    | Option.none => yLookupD fSec "txt" (.b true)
  FORMATS_HTML :=
    match _get_env_bool env "STORAGE_HTML_ENABLED" with
    | some v => .b v
    | Option.none => yLookupD fSec "html" (.b true)
  LOCAL_DATA_DIR := yLookupD lSec "data_dir" (.s "output")
  LOCAL_RETENTION_DAYS :=
    pyOrInt (_get_env_int env "LOCAL_RETENTION_DAYS") (yLookupD lSec "retention_days" (.i 0))
  REMOTE_ENDPOINT_URL :=
    pyOrStr (_get_env_str env "S3_ENDPOINT_URL") (yLookupD rSec "endpoint_url" (.s ""))
  REMOTE_BUCKET_NAME :=
    pyOrStr (_get_env_str env "S3_BUCKET_NAME") (yLookupD rSec "bucket_name" (.s ""))
  REMOTE_ACCESS_KEY_ID :=
    pyOrStr (_get_env_str env "S3_ACCESS_KEY_ID") (yLookupD rSec "access_key_id" (.s ""))
  REMOTE_SECRET_ACCESS_KEY :=
    pyOrStr (_get_env_str env "S3_SECRET_ACCESS_KEY") (yLookupD rSec "secret_access_key" (.s ""))
  REMOTE_REGION := pyOrStr (_get_env_str env "S3_REGION") (yLookupD rSec "region" (.s ""))
  REMOTE_RETENTION_DAYS :=
    pyOrInt (_get_env_int env "REMOTE_RETENTION_DAYS") (yLookupD rSec "retention_days" (.i 0))
  PULL_ENABLED :=
    match _get_env_bool env "PULL_ENABLED" with
    | some v => .b v
    | Option.none => yLookupD pSec "enabled" (.b false)
  PULL_DAYS := pyOrInt (_get_env_int env "PULL_DAYS") (yLookupD pSec "days" (.i 7))

/-- `_load_storage_config`. -/
def _load_storage_config (env : Env) (configData : YVal) : Except PyErr StorageConfig := do
  let s ← yAttrGet configData "storage" (.dict [])
  let sSec ← asDict s
  let fSec ← asDict (yLookupD sSec "formats" (.dict []))
  let lSec ← asDict (yLookupD sSec "local" (.dict []))
  let rSec ← asDict (yLookupD sSec "remote" (.dict []))
  let pSec ← asDict (yLookupD sSec "pull" (.dict []))
  return mkStorageConfig env sSec fSec lSec rSec pSec

/-- Fields produced by `_load_webhook_config`. -/
structure WebhookConfig where
  FEISHU_WEBHOOK_URL : YVal
  DINGTALK_WEBHOOK_URL : YVal
  WEWORK_WEBHOOK_URL : YVal
  WEWORK_MSG_TYPE : YVal
  TELEGRAM_BOT_TOKEN : YVal
  TELEGRAM_CHAT_ID : YVal
  EMAIL_FROM : YVal
  EMAIL_PASSWORD : YVal
  EMAIL_TO : YVal
  EMAIL_SMTP_SERVER : YVal
  EMAIL_SMTP_PORT : YVal
  NTFY_SERVER_URL : YVal
  NTFY_TOPIC : YVal
  NTFY_TOKEN : YVal
  BARK_URL : YVal
  SLACK_WEBHOOK_URL : YVal
  deriving Repr

/-- Python `a or b or c` for the `NTFY_SERVER_URL` line: first truthy
operand, else the last. -/
def pyOr3 (s : String) (y : YVal) (last : String) : YVal :=
  if s ≠ "" then .s s else if truthy y then y else .s last

/-- The dict literal of `_load_webhook_config`.  Note the `ntfy_server_url`
lookup has no default (`webhooks.get("ntfy_server_url")` → Python `None`)
and the chain ends in the truthy literal `"https://ntfy.sh"`. -/
def mkWebhookConfig (env : Env) (sec : List (String × YVal)) : WebhookConfig where
  FEISHU_WEBHOOK_URL :=
    pyOrStr (_get_env_str env "FEISHU_WEBHOOK_URL") (yLookupD sec "feishu_url" (.s ""))
  DINGTALK_WEBHOOK_URL :=
    pyOrStr (_get_env_str env "DINGTALK_WEBHOOK_URL") (yLookupD sec "dingtalk_url" (.s ""))
  WEWORK_WEBHOOK_URL :=
    pyOrStr (_get_env_str env "WEWORK_WEBHOOK_URL") (yLookupD sec "wework_url" (.s ""))
  WEWORK_MSG_TYPE :=
    pyOrStr (_get_env_str env "WEWORK_MSG_TYPE") (yLookupD sec "wework_msg_type" (.s "markdown"))
  TELEGRAM_BOT_TOKEN :=
    pyOrStr (_get_env_str env "TELEGRAM_BOT_TOKEN") (yLookupD sec "telegram_bot_token" (.s ""))
  TELEGRAM_CHAT_ID :=
    pyOrStr (_get_env_str env "TELEGRAM_CHAT_ID") (yLookupD sec "telegram_chat_id" (.s ""))
  EMAIL_FROM := pyOrStr (_get_env_str env "EMAIL_FROM") (yLookupD sec "email_from" (.s ""))
  EMAIL_PASSWORD :=
    pyOrStr (_get_env_str env "EMAIL_PASSWORD") (yLookupD sec "email_password" (.s ""))
  EMAIL_TO := pyOrStr (_get_env_str env "EMAIL_TO") (yLookupD sec "email_to" (.s ""))
  EMAIL_SMTP_SERVER :=
    pyOrStr (_get_env_str env "EMAIL_SMTP_SERVER") (yLookupD sec "email_smtp_server" (.s ""))
  EMAIL_SMTP_PORT :=
    pyOrStr (_get_env_str env "EMAIL_SMTP_PORT") (yLookupD sec "email_smtp_port" (.s ""))
  NTFY_SERVER_URL :=
    pyOr3 (_get_env_str env "NTFY_SERVER_URL") (yLookupD sec "ntfy_server_url" .none)
      "https://ntfy.sh"
  NTFY_TOPIC := pyOrStr (_get_env_str env "NTFY_TOPIC") (yLookupD sec "ntfy_topic" (.s ""))
  NTFY_TOKEN := pyOrStr (_get_env_str env "NTFY_TOKEN") (yLookupD sec "ntfy_token" (.s ""))
  BARK_URL := pyOrStr (_get_env_str env "BARK_URL") (yLookupD sec "bark_url" (.s ""))
  SLACK_WEBHOOK_URL :=
    pyOrStr (_get_env_str env "SLACK_WEBHOOK_URL") (yLookupD sec "slack_webhook_url" (.s ""))

/-- `_load_webhook_config`. -/
def _load_webhook_config (env : Env) (configData : YVal) : Except PyErr WebhookConfig := do
  let n ← yAttrGet configData "notification" (.dict [])
  let nSec ← asDict n
  let sec ← asDict (yLookupD nSec "webhooks" (.dict []))
  return mkWebhookConfig env sec

/-! ## Multi-account parsing, pairing validation, channel summary -/

/-- Modelled from the spec: `parse_multi_account_config` is defined in
`trendradar/core/config.py`, which is not among the provided sources.
Spec 4.3: split the string on the comma delimiter, trim every token, and
discard empty tokens; empty input gives the empty sequence. -/
def parse_multi_account_config (s : String) : List String :=
  ((pySplitOn s ',').map pyStrip).filter (fun t => t ≠ "")

/-- The account parser as applied by `_print_notification_sources` to a
resolved configuration value.  The spec defines the parser only on strings;
applying it to a truthy non-string value is flagged instead of guessed. -/
def parseAccountsY (v : YVal) : Except PyErr (List String) :=
  match v with
  | .s str => .ok (parse_multi_account_config str)
  | _ => .error .nonStringAccountField

/-- Modelled from the spec: `validate_paired_configs` is defined in
`trendradar/core/config.py`, which is not among the provided sources.
Spec 4.4: with `n` the length of the first required field's sequence, the
result is `(true, n)` iff every required field's sequence has length
exactly `n` and `n > 0`; otherwise `(false, 0)`.  When no explicit
`required_keys` is passed (the ntfy call site), all fields of the mapping
are required. -/
def validate_paired_configs (fields : List (String × List String))
    (requiredKeys : Option (List String)) : Bool × Int :=
  let req := requiredKeys.getD (fields.map (fun kv => kv.1))
  let seqs := req.map (fun k => (List.lookup k fields).getD [])
  match seqs with
  | [] => (false, 0)
  | first :: rest =>
    let n := first.length
    if 0 < n && rest.all (fun l => l.length == n) then (true, (n : Int)) else (false, 0)

/-- One appended entry of `notification_sources`: the channel label, the
configuration-source label, and the account count interpolated into the
line (`none` for the email line, which interpolates no count). -/
structure SummaryLine where
  channel : String
  source : String
  count : Option Int
  deriving Repr, DecidableEq

/-- Outcome of `_print_notification_sources`: the appended channel entries,
and whether the `else` branch (the "no channel configured" message) was
taken. -/
structure SummaryOut where
  lines : List SummaryLine
  noChannel : Bool
  deriving Repr, DecidableEq

/-- `"环境变量" if os.environ.get(key) else "配置文件"` — the raw (untrimmed)
environment value decides the reported source. -/
def envSource (env : Env) (key : String) : String :=
  match envGet env key with
  | some s => if s ≠ "" then "环境变量" else "配置文件"
  | Option.none => "配置文件"

/-- Python `min(a, m)` where `a` is an int and `m` a configuration value:
defined on ints and on bools (Python `bool` is an `int` subtype, `True = 1`,
`False = 0`), a `TypeError` otherwise. -/
def pyMin (a : Int) (m : YVal) : Except PyErr Int :=
  match m with
  | .i v => .ok (min a v)
  | .b v => .ok (min a (if v then 1 else 0))
  | _ => .error .typeError

/-- The shared shape of the 飞书/钉钉/企业微信/Bark/Slack blocks of
`_print_notification_sources`: if the resolved value is truthy, parse it,
cap the account count, and append one line labelled `label` whose source is
decided by the raw environment variable `envKey`. -/
def channelPart (label envKey : String) (env : Env) (maxAccounts : YVal) (url : YVal) :
    Except PyErr (List SummaryLine) :=
  if truthy url then do
    let accounts ← parseAccountsY url
    let count ← pyMin (accounts.length : Int) maxAccounts
    return [⟨label, envSource env envKey, some count⟩]
  else return []

/-- The 飞书 block of `_print_notification_sources`. -/
def feishuPart (env : Env) (maxAccounts : YVal) (url : YVal) :
    Except PyErr (List SummaryLine) :=
  channelPart "飞书" "FEISHU_WEBHOOK_URL" env maxAccounts url

/-- The 钉钉 block of `_print_notification_sources`. -/
def dingtalkPart (env : Env) (maxAccounts : YVal) (url : YVal) :
    Except PyErr (List SummaryLine) :=
  channelPart "钉钉" "DINGTALK_WEBHOOK_URL" env maxAccounts url

/-- The 企业微信 block of `_print_notification_sources`. -/
def weworkPart (env : Env) (maxAccounts : YVal) (url : YVal) :
    Except PyErr (List SummaryLine) :=
  channelPart "企业微信" "WEWORK_WEBHOOK_URL" env maxAccounts url

/-- The Telegram block of `_print_notification_sources`: both fields must
be truthy, the parsed lists must validate as a pair with positive count. -/
def telegramPart (env : Env) (maxAccounts : YVal) (botToken chatId : YVal) :
    Except PyErr (List SummaryLine) :=
  if truthy botToken && truthy chatId then do
    let tokens ← parseAccountsY botToken
    let chatIds ← parseAccountsY chatId
    let vc := validate_paired_configs [("bot_token", tokens), ("chat_id", chatIds)]
      (some ["bot_token", "chat_id"])
    if vc.1 && 0 < vc.2 then do
      let count ← pyMin vc.2 maxAccounts
      return [⟨"Telegram", envSource env "TELEGRAM_BOT_TOKEN", some count⟩]
    else return []
  else return []

/-- The 邮件 block of `_print_notification_sources`: appended when the three
fields are truthy; the line carries no account count. -/
def emailPart (env : Env) (emailFrom emailPassword emailTo : YVal) :
    Except PyErr (List SummaryLine) :=
  if truthy emailFrom && truthy emailPassword && truthy emailTo then
    return [⟨"邮件", envSource env "EMAIL_FROM", Option.none⟩]
  else return []

/-- The ntfy block of `_print_notification_sources`: when tokens were
parsed, topic/token must validate as a pair; otherwise the topic count is
reported directly (even when it is zero). -/
def ntfyPart (env : Env) (maxAccounts : YVal) (serverUrl topic token : YVal) :
    Except PyErr (List SummaryLine) :=
  if truthy serverUrl && truthy topic then do
    let topics ← parseAccountsY topic
    let tokens ← parseAccountsY token
    if !tokens.isEmpty then
      let vc := validate_paired_configs [("topic", topics), ("token", tokens)] Option.none
      if vc.1 && 0 < vc.2 then do
        let count ← pyMin vc.2 maxAccounts
        return [⟨"ntfy", envSource env "NTFY_SERVER_URL", some count⟩]
      else return []
    else do
      let count ← pyMin (topics.length : Int) maxAccounts
      return [⟨"ntfy", envSource env "NTFY_SERVER_URL", some count⟩]
  else return []

/-- The Bark block of `_print_notification_sources`. -/
def barkPart (env : Env) (maxAccounts : YVal) (url : YVal) :
    Except PyErr (List SummaryLine) :=
  channelPart "Bark" "BARK_URL" env maxAccounts url

/-- The Slack block of `_print_notification_sources`. -/
def slackPart (env : Env) (maxAccounts : YVal) (url : YVal) :
    Except PyErr (List SummaryLine) :=
  channelPart "Slack" "SLACK_WEBHOOK_URL" env maxAccounts url

/-- The full resolved configuration (`load_config` merges the flat section
dicts and nests `PUSH_WINDOW`, `WEIGHT_CONFIG`, `PLATFORMS`, `STORAGE`). -/
structure Config where
  app : AppConfig
  crawler : CrawlerConfig
  report : ReportConfig
  notification : NotifConfig
  PUSH_WINDOW : PushWindowConfig
  WEIGHT_CONFIG : WeightConfig
  PLATFORMS : YVal
  STORAGE : StorageConfig
  webhook : WebhookConfig
  deriving Repr

/-- `_print_notification_sources`: the blocks run in source order, each
appending its entries to `notification_sources`; the final list decides
between the summary print and the "no channel configured" print. -/
def _print_notification_sources (env : Env) (config : Config) :
    Except PyErr SummaryOut := do
  let maxAccounts := config.notification.MAX_ACCOUNTS_PER_CHANNEL
  let p1 ← feishuPart env maxAccounts config.webhook.FEISHU_WEBHOOK_URL
  let p2 ← dingtalkPart env maxAccounts config.webhook.DINGTALK_WEBHOOK_URL
  let p3 ← weworkPart env maxAccounts config.webhook.WEWORK_WEBHOOK_URL
  let p4 ← telegramPart env maxAccounts config.webhook.TELEGRAM_BOT_TOKEN
    config.webhook.TELEGRAM_CHAT_ID
  let p5 ← emailPart env config.webhook.EMAIL_FROM config.webhook.EMAIL_PASSWORD
    config.webhook.EMAIL_TO
  let p6 ← ntfyPart env maxAccounts config.webhook.NTFY_SERVER_URL
    config.webhook.NTFY_TOPIC config.webhook.NTFY_TOKEN
  let p7 ← barkPart env maxAccounts config.webhook.BARK_URL
  let p8 ← slackPart env maxAccounts config.webhook.SLACK_WEBHOOK_URL
  let sources := p1 ++ p2 ++ p3 ++ p4 ++ p5 ++ p6 ++ p7 ++ p8
  return { lines := sources, noChannel := sources.isEmpty }

/-! ## `load_config` -/

/-- What the file system and `yaml.safe_load` yield for a path: no file
(`Path(...).exists()` false), unparsable content (`yaml.YAMLError`), or a
parsed value (an empty file parses to Python `None`, i.e. `YVal.none`). -/
inductive FileOutcome where
  | absent
  | parseError
  | parsed (v : YVal)

/-- Path resolution at the top of `load_config`: an explicit argument wins,
else `os.environ.get("CONFIG_PATH", "config/config.yaml")`. -/
def resolveConfigPath (env : Env) (configPath : Option String) : String :=
  match configPath with
  | some p => p
  | Option.none => (envGet env "CONFIG_PATH").getD "config/config.yaml"

/-- `load_config`: existence check, YAML load, the section resolvers in
source order, assembly of the merged configuration, and the channel-source
summary print (whose outcome is returned alongside the configuration). -/
def load_config (env : Env) (fs : String → FileOutcome) (configPath : Option String) :
    Except PyErr (Config × SummaryOut) := do
  let path := resolveConfigPath env configPath
  match fs path with
  | .absent => .error .fileNotFoundError
  | .parseError => .error .yamlError
  | .parsed configData => do
    let app ← _load_app_config env configData
    let crawler ← _load_crawler_config env configData
    let report ← _load_report_config env configData
    let notification ← _load_notification_config env configData
    let pushWindow ← _load_push_window_config env configData
    let weight ← _load_weight_config configData
    let platforms ← yAttrGet configData "platforms" (.list [])
    let storage ← _load_storage_config env configData
    let webhook ← _load_webhook_config env configData
    let config : Config :=
      { app := app, crawler := crawler, report := report, notification := notification,
        PUSH_WINDOW := pushWindow, WEIGHT_CONFIG := weight, PLATFORMS := platforms,
        STORAGE := storage, webhook := webhook }
    let summary ← _print_notification_sources env config
    return (config, summary)

/-! ## Basic lemmas about the environment accessors -/

theorem pyLower_ne_empty {s : String} (h : s ≠ "") : pyLower s ≠ "" := by
  intro hc
  apply h
  cases s with
  | mk data =>
    cases data with
    | nil => rfl
    | cons c cs =>
      have hd : (pyLower ⟨c :: cs⟩).data = ("" : String).data := by rw [hc]
      simp [pyLower] at hd

theorem _get_env_bool_of_set {env : Env} {key v : String} (h : envGet env key = some v)
    (hne : pyStrip v ≠ "") :
    _get_env_bool env key =
      some (pyLower (pyStrip v) == "true" || pyLower (pyStrip v) == "1") := by
  unfold _get_env_bool
  rw [h]
  simp only [Option.getD_some]
  rw [if_neg (pyLower_ne_empty hne)]

theorem _get_env_bool_unset {env : Env} {key : String} (h : envGet env key = Option.none) :
    _get_env_bool env key = Option.none := by
  unfold _get_env_bool
  rw [h]
  rfl

theorem _get_env_bool_blank {env : Env} {key v : String} (h : envGet env key = some v)
    (hb : pyStrip v = "") : _get_env_bool env key = Option.none := by
  unfold _get_env_bool
  rw [h]
  simp only [Option.getD_some, hb]
  rfl

theorem _get_env_int_unset {env : Env} {key : String} {d : Int}
    (h : envGet env key = Option.none) : _get_env_int env key d = d := by
  unfold _get_env_int
  rw [h]
  rfl

theorem _get_env_int_unparsable {env : Env} {key v : String} {d : Int}
    (h : envGet env key = some v) (hp : parsePyInt (pyStrip v) = Option.none) :
    _get_env_int env key d = d := by
  unfold _get_env_int
  rw [h]
  simp only [Option.getD_some]
  split
  · rfl
  · rw [hp]

theorem _get_env_int_parsed {env : Env} {key v : String} {d n : Int}
    (h : envGet env key = some v) (hp : parsePyInt (pyStrip v) = some n) :
    _get_env_int env key d = n := by
  unfold _get_env_int
  rw [h]
  simp only [Option.getD_some]
  split
  · rename_i he
    rw [he] at hp
    exact absurd hp (by simp [parsePyInt, pyDigitsOk])
  · rw [hp]

theorem _get_env_str_of_set {env : Env} {key v d : String} (h : envGet env key = some v)
    (hne : pyStrip v ≠ "") : _get_env_str env key d = pyStrip v := by
  unfold _get_env_str
  rw [h]
  simp only [Option.getD_some]
  rw [if_neg hne]

theorem _get_env_str_unset {env : Env} {key d : String} (h : envGet env key = Option.none) :
    _get_env_str env key d = d := by
  unfold _get_env_str
  rw [h]
  rfl

theorem _get_env_str_blank {env : Env} {key v d : String} (h : envGet env key = some v)
    (hb : pyStrip v = "") : _get_env_str env key d = d := by
  unfold _get_env_str
  rw [h]
  simp [hb]

/-- An environment variable that is unset or strip-empty yields the default
through `_get_env_str`; stated with a single hypothesis covering both. -/
theorem _get_env_str_absent {env : Env} {key d : String}
    (h : ∀ v, envGet env key = some v → pyStrip v = "") : _get_env_str env key d = d := by
  cases he : envGet env key with
  | none => exact _get_env_str_unset he
  | some v => exact _get_env_str_blank he (h v he)

/-- An environment variable that is unset or strip-empty is absent for
`_get_env_bool`; stated with a single hypothesis covering both. -/
theorem _get_env_bool_absent {env : Env} {key : String}
    (h : ∀ v, envGet env key = some v → pyStrip v = "") :
    _get_env_bool env key = Option.none := by
  cases he : envGet env key with
  | none => exact _get_env_bool_unset he
  | some v => exact _get_env_bool_blank he (h v he)

theorem pyOrInt_zero {y : YVal} : pyOrInt 0 y = y := by
  simp [pyOrInt]

theorem pyOrInt_nonzero {n : Int} {y : YVal} (h : n ≠ 0) : pyOrInt n y = .i n := by
  simp [pyOrInt, h]

theorem pyOrStr_empty {y : YVal} : pyOrStr "" y = y := by
  simp [pyOrStr]

theorem pyOrStr_nonempty {s : String} {y : YVal} (h : s ≠ "") : pyOrStr s y = .s s := by
  simp [pyOrStr, h]

/-! ## Preservation of present environment variables by `_load_dotenv` -/

theorem lookup_append_some {α β : Type} [BEq α] {l1 l2 : List (α × β)} {a : α} {b : β}
    (h : List.lookup a l1 = some b) : List.lookup a (l1 ++ l2) = some b := by
  induction l1 with
  | nil => simp [List.lookup] at h
  | cons p rest ih =>
    cases p with
    | mk k v =>
      rw [List.cons_append, List.lookup] at *
      cases hak : a == k with
      | true => rw [hak] at h; simpa [hak] using h
      | false => rw [hak] at h; simpa [hak] using ih h

/-- One `dotenvStep` never changes a key that resolves to a value in the
accumulated environment. -/
theorem dotenvStep_preserves {acc : Env × Nat} {line key : String} {v : String}
    (h : envGet acc.1 key = some v) : envGet (dotenvStep acc line).1 key = some v := by
  unfold dotenvStep
  dsimp only
  split
  · exact h
  · split
    · exact h
    · split
      · exact lookup_append_some h
      · exact h

/-- Environment invariant of the whole `.env` load: every key either keeps
exactly its initial value, or was initially absent. -/
theorem _load_dotenv_env_inv (lines : List String) (env : Env) (key : String) :
    envGet (_load_dotenv lines env).1 key = envGet env key ∨
      envGet env key = Option.none := by
  unfold _load_dotenv
  have main : ∀ (ls : List String) (acc : Env × Nat),
      (envGet acc.1 key = envGet env key ∨ envGet env key = Option.none) →
      (envGet (ls.foldl dotenvStep acc).1 key = envGet env key ∨
        envGet env key = Option.none) := by
    intro ls
    induction ls with
    | nil => intro acc h; exact h
    | cons l rest ih =>
      intro acc h
      rw [List.foldl_cons]
      apply ih
      rcases h with h | h
      · cases he : envGet acc.1 key with
        | none =>
          rw [he] at h
          exact Or.inr h.symm
        | some v =>
          rw [he] at h
          rw [← h]
          exact Or.inl (dotenvStep_preserves he)
      · exact Or.inr h
  exact main lines (env, 0) (Or.inl rfl)

/-- C8 (confirmed): loading the `.env` override file never overwrites a
variable already present in the process environment — every key that is set
before the load keeps exactly its value — and a key whose value changes must
have been absent beforehand (only absent keys are set from the file's
KEY=VALUE lines, with comments skipped and surrounding quotes stripped in
`dotenvStep`). -/
theorem dotenv_never_overwrites :
    (∀ (lines : List String) (env : Env) (key v : String),
        envGet env key = some v → envGet (_load_dotenv lines env).1 key = some v) ∧
    (∀ (lines : List String) (env : Env) (key : String),
        envGet (_load_dotenv lines env).1 key ≠ envGet env key →
        envGet env key = Option.none) := by
  constructor
  · intro lines env key v h
    rcases _load_dotenv_env_inv lines env key with hinv | hinv
    · rw [hinv, h]
    · rw [h] at hinv
      exact absurd hinv (by simp)
  · intro lines env key hne
    rcases _load_dotenv_env_inv lines env key with hinv | hinv
    · exact absurd hinv hne
    · exact hinv

/-- Witness for C8: with `A` already set to `"1"`, loading a `.env` file
that assigns both `A` and a fresh key `B` leaves `A` untouched. -/
theorem dotenv_never_overwrites_witness :
    envGet (_load_dotenv ["A=2", "B=3"] [("A", "1")]).1 "A" = some "1" :=
  dotenv_never_overwrites.1 ["A=2", "B=3"] [("A", "1")] "A" "1" rfl

/-! ## Integer environment overrides (C2, C7) -/

/-- C2 (counterexample): setting the `MAX_ACCOUNTS_PER_CHANNEL` environment
variable to `"0"` does not resolve the field to 0 — the Python `or` treats
the parsed 0 as falsy, so the file value 7 wins, contradicting the claim
that an explicit 0 override wins outright for this field. -/
theorem maxAccountsZeroOverride_counterexample :
    (mkNotifConfig [("MAX_ACCOUNTS_PER_CHANNEL", "0")]
        [("max_accounts_per_channel", YVal.i 7)]).MAX_ACCOUNTS_PER_CHANNEL = YVal.i 7 ∧
    YVal.i 7 ≠ YVal.i 0 := by
  constructor
  · rfl
  · simp

/-- C2 (corrected): an integer environment override that parses to 0 falls
through to the file value (or the per-field default) for *every* integer
field — including `MAX_ACCOUNTS_PER_CHANNEL`, not only fields where 0 means
"no limit" — while a nonzero parsed override wins outright. -/
theorem intZeroOverrideFallsThrough :
    (∀ (env : Env) (sec : List (String × YVal)) (v : String),
        envGet env "MAX_ACCOUNTS_PER_CHANNEL" = some v →
        parsePyInt (pyStrip v) = some 0 →
        (mkNotifConfig env sec).MAX_ACCOUNTS_PER_CHANNEL =
          yLookupD sec "max_accounts_per_channel" (.i 3)) ∧
    (∀ (env : Env) (sec : List (String × YVal)) (v : String) (n : Int),
        envGet env "MAX_ACCOUNTS_PER_CHANNEL" = some v →
        parsePyInt (pyStrip v) = some n → n ≠ 0 →
        (mkNotifConfig env sec).MAX_ACCOUNTS_PER_CHANNEL = .i n) ∧
    (∀ (env : Env) (sec : List (String × YVal)) (v : String),
        envGet env "MAX_NEWS_PER_KEYWORD" = some v →
        parsePyInt (pyStrip v) = some 0 →
        (mkReportConfig env sec).MAX_NEWS_PER_KEYWORD =
          yLookupD sec "max_news_per_keyword" (.i 0)) ∧
    (∀ (env : Env) (sec : List (String × YVal)) (v : String) (n : Int),
        envGet env "MAX_NEWS_PER_KEYWORD" = some v →
        parsePyInt (pyStrip v) = some n → n ≠ 0 →
        (mkReportConfig env sec).MAX_NEWS_PER_KEYWORD = .i n) := by
  refine ⟨?_, ?_, ?_, ?_⟩
  · intro env sec v h hp
    simp [mkNotifConfig, _get_env_int_parsed h hp, pyOrInt_zero]
  · intro env sec v n h hp hn
    simp [mkNotifConfig, _get_env_int_parsed h hp, pyOrInt_nonzero hn]
  · intro env sec v h hp
    simp [mkReportConfig, _get_env_int_parsed h hp, pyOrInt_zero]
  · intro env sec v n h hp hn
    simp [mkReportConfig, _get_env_int_parsed h hp, pyOrInt_nonzero hn]

/-- Witness for C2 (corrected): `MAX_ACCOUNTS_PER_CHANNEL="0"` falls
through to the file value 5, and `MAX_NEWS_PER_KEYWORD="4"` overrides the
file value 9. -/
theorem intZeroOverrideFallsThrough_witness :
    (mkNotifConfig [("MAX_ACCOUNTS_PER_CHANNEL", "0")]
        [("max_accounts_per_channel", YVal.i 5)]).MAX_ACCOUNTS_PER_CHANNEL = YVal.i 5 ∧
    (mkReportConfig [("MAX_NEWS_PER_KEYWORD", "4")]
        [("max_news_per_keyword", YVal.i 9)]).MAX_NEWS_PER_KEYWORD = YVal.i 4 := by
  constructor
  · exact intZeroOverrideFallsThrough.1 _ _ "0" rfl rfl
  · exact intZeroOverrideFallsThrough.2.2.2 _ _ "4" 4 rfl rfl (by decide)

/-- C7 (confirmed): for every integer environment variable of the loader
(`MAX_NEWS_PER_KEYWORD`, `MAX_ACCOUNTS_PER_CHANNEL`, `LOCAL_RETENTION_DAYS`,
`REMOTE_RETENTION_DAYS`, `PULL_DAYS`), a value that does not parse as an
integer behaves exactly as if the variable were absent: the resolved field
is the file value when the key exists, else the per-field default (and the
embedded resolver is total — no exception). -/
theorem unparsableIntBehavesAsAbsent :
    (∀ (env : Env) (sec : List (String × YVal)) (v : String),
        envGet env "MAX_NEWS_PER_KEYWORD" = some v →
        parsePyInt (pyStrip v) = Option.none →
        (mkReportConfig env sec).MAX_NEWS_PER_KEYWORD =
          yLookupD sec "max_news_per_keyword" (.i 0)) ∧
    (∀ (env : Env) (sec : List (String × YVal)) (v : String),
        envGet env "MAX_ACCOUNTS_PER_CHANNEL" = some v →
        parsePyInt (pyStrip v) = Option.none →
        (mkNotifConfig env sec).MAX_ACCOUNTS_PER_CHANNEL =
          yLookupD sec "max_accounts_per_channel" (.i 3)) ∧
    (∀ (env : Env) (sSec fSec lSec rSec pSec : List (String × YVal)) (v : String),
        envGet env "LOCAL_RETENTION_DAYS" = some v →
        parsePyInt (pyStrip v) = Option.none →
        (mkStorageConfig env sSec fSec lSec rSec pSec).LOCAL_RETENTION_DAYS =
          yLookupD lSec "retention_days" (.i 0)) ∧
    (∀ (env : Env) (sSec fSec lSec rSec pSec : List (String × YVal)) (v : String),
        envGet env "REMOTE_RETENTION_DAYS" = some v →
        parsePyInt (pyStrip v) = Option.none →
        (mkStorageConfig env sSec fSec lSec rSec pSec).REMOTE_RETENTION_DAYS =
          yLookupD rSec "retention_days" (.i 0)) ∧
    (∀ (env : Env) (sSec fSec lSec rSec pSec : List (String × YVal)) (v : String),
        envGet env "PULL_DAYS" = some v →
        parsePyInt (pyStrip v) = Option.none →
        (mkStorageConfig env sSec fSec lSec rSec pSec).PULL_DAYS =
          yLookupD pSec "days" (.i 7)) := by
  refine ⟨?_, ?_, ?_, ?_, ?_⟩
  · intro env sec v h hp
    simp [mkReportConfig, _get_env_int_unparsable h hp, pyOrInt_zero]
  · intro env sec v h hp
    simp [mkNotifConfig, _get_env_int_unparsable h hp, pyOrInt_zero]
  · intro env sSec fSec lSec rSec pSec v h hp
    simp [mkStorageConfig, _get_env_int_unparsable h hp, pyOrInt_zero]
  · intro env sSec fSec lSec rSec pSec v h hp
    simp [mkStorageConfig, _get_env_int_unparsable h hp, pyOrInt_zero]
  · intro env sSec fSec lSec rSec pSec v h hp
    simp [mkStorageConfig, _get_env_int_unparsable h hp, pyOrInt_zero]

/-- Witness for C7: `"abc"` and `"12x"` do not parse; each field falls
through to its file value or documented default. -/
theorem unparsableIntBehavesAsAbsent_witness :
    (mkReportConfig [("MAX_NEWS_PER_KEYWORD", "abc")]
        [("max_news_per_keyword", YVal.i 6)]).MAX_NEWS_PER_KEYWORD = YVal.i 6 ∧
    (mkNotifConfig [("MAX_ACCOUNTS_PER_CHANNEL", "12x")] []).MAX_ACCOUNTS_PER_CHANNEL =
      YVal.i 3 ∧
    (mkStorageConfig [("PULL_DAYS", "7.5")] [] [] [] [] []).PULL_DAYS = YVal.i 7 := by
  refine ⟨?_, ?_, ?_⟩
  · exact unparsableIntBehavesAsAbsent.1 _ _ "abc" rfl rfl
  · exact unparsableIntBehavesAsAbsent.2.1 _ _ "12x" rfl rfl
  · exact unparsableIntBehavesAsAbsent.2.2.2.2 _ _ _ _ _ _ "7.5" rfl rfl

/-! ## Boolean environment overrides (C3) -/

/-- C3 (confirmed): for each of the nine boolean configuration fields, a
variable that is non-empty after stripping resolves to `true` exactly when
its stripped, lowercased value is `"true"` or `"1"` (any other value gives
an overriding `false`); an unset or strip-empty variable falls through to
the file value when the key exists, else the per-field default. -/
theorem boolEnvOverrideSemantics :
    (∀ (env : Env) (sec : List (String × YVal)) (v : String),
        envGet env "ENABLE_CRAWLER" = some v → pyStrip v ≠ "" →
        (mkCrawlerConfig env sec).ENABLE_CRAWLER =
          .b (pyLower (pyStrip v) == "true" || pyLower (pyStrip v) == "1")) ∧
    (∀ (env : Env) (sec : List (String × YVal)),
        (∀ v, envGet env "ENABLE_CRAWLER" = some v → pyStrip v = "") →
        (mkCrawlerConfig env sec).ENABLE_CRAWLER = yLookupD sec "enable_crawler" (.b true)) ∧
    (∀ (env : Env) (sec : List (String × YVal)) (v : String),
        envGet env "SORT_BY_POSITION_FIRST" = some v → pyStrip v ≠ "" →
        (mkReportConfig env sec).SORT_BY_POSITION_FIRST =
          .b (pyLower (pyStrip v) == "true" || pyLower (pyStrip v) == "1")) ∧
    (∀ (env : Env) (sec : List (String × YVal)),
        (∀ v, envGet env "SORT_BY_POSITION_FIRST" = some v → pyStrip v = "") →
        (mkReportConfig env sec).SORT_BY_POSITION_FIRST =
          yLookupD sec "sort_by_position_first" (.b false)) ∧
    (∀ (env : Env) (sec : List (String × YVal)) (v : String),
        envGet env "REVERSE_CONTENT_ORDER" = some v → pyStrip v ≠ "" →
        (mkReportConfig env sec).REVERSE_CONTENT_ORDER =
          .b (pyLower (pyStrip v) == "true" || pyLower (pyStrip v) == "1")) ∧
    (∀ (env : Env) (sec : List (String × YVal)),
        (∀ v, envGet env "REVERSE_CONTENT_ORDER" = some v → pyStrip v = "") →
        (mkReportConfig env sec).REVERSE_CONTENT_ORDER =
          yLookupD sec "reverse_content_order" (.b false)) ∧
    (∀ (env : Env) (sec : List (String × YVal)) (v : String),
        envGet env "ENABLE_NOTIFICATION" = some v → pyStrip v ≠ "" →
        (mkNotifConfig env sec).ENABLE_NOTIFICATION =
          .b (pyLower (pyStrip v) == "true" || pyLower (pyStrip v) == "1")) ∧
    (∀ (env : Env) (sec : List (String × YVal)),
        (∀ v, envGet env "ENABLE_NOTIFICATION" = some v → pyStrip v = "") →
        (mkNotifConfig env sec).ENABLE_NOTIFICATION =
          yLookupD sec "enable_notification" (.b true)) ∧
    (∀ (env : Env) (pwSec trSec : List (String × YVal)) (v : String),
        envGet env "PUSH_WINDOW_ENABLED" = some v → pyStrip v ≠ "" →
        (mkPushWindowConfig env pwSec trSec).ENABLED =
          .b (pyLower (pyStrip v) == "true" || pyLower (pyStrip v) == "1")) ∧
    (∀ (env : Env) (pwSec trSec : List (String × YVal)),
        (∀ v, envGet env "PUSH_WINDOW_ENABLED" = some v → pyStrip v = "") →
        (mkPushWindowConfig env pwSec trSec).ENABLED = yLookupD pwSec "enabled" (.b false)) ∧
    (∀ (env : Env) (pwSec trSec : List (String × YVal)) (v : String),
        envGet env "PUSH_WINDOW_ONCE_PER_DAY" = some v → pyStrip v ≠ "" →
        (mkPushWindowConfig env pwSec trSec).ONCE_PER_DAY =
          .b (pyLower (pyStrip v) == "true" || pyLower (pyStrip v) == "1")) ∧
    (∀ (env : Env) (pwSec trSec : List (String × YVal)),
        (∀ v, envGet env "PUSH_WINDOW_ONCE_PER_DAY" = some v → pyStrip v = "") →
        (mkPushWindowConfig env pwSec trSec).ONCE_PER_DAY =
          yLookupD pwSec "once_per_day" (.b true)) ∧
    (∀ (env : Env) (sSec fSec lSec rSec pSec : List (String × YVal)) (v : String),
        envGet env "STORAGE_TXT_ENABLED" = some v → pyStrip v ≠ "" →
        (mkStorageConfig env sSec fSec lSec rSec pSec).FORMATS_TXT =
          .b (pyLower (pyStrip v) == "true" || pyLower (pyStrip v) == "1")) ∧
    (∀ (env : Env) (sSec fSec lSec rSec pSec : List (String × YVal)),
        (∀ v, envGet env "STORAGE_TXT_ENABLED" = some v → pyStrip v = "") →
        (mkStorageConfig env sSec fSec lSec rSec pSec).FORMATS_TXT =
          yLookupD fSec "txt" (.b true)) ∧
    (∀ (env : Env) (sSec fSec lSec rSec pSec : List (String × YVal)) (v : String),
        envGet env "STORAGE_HTML_ENABLED" = some v → pyStrip v ≠ "" →
        (mkStorageConfig env sSec fSec lSec rSec pSec).FORMATS_HTML =
          .b (pyLower (pyStrip v) == "true" || pyLower (pyStrip v) == "1")) ∧
    (∀ (env : Env) (sSec fSec lSec rSec pSec : List (String × YVal)),
        (∀ v, envGet env "STORAGE_HTML_ENABLED" = some v → pyStrip v = "") →
        (mkStorageConfig env sSec fSec lSec rSec pSec).FORMATS_HTML =
          yLookupD fSec "html" (.b true)) ∧
    (∀ (env : Env) (sSec fSec lSec rSec pSec : List (String × YVal)) (v : String),
        envGet env "PULL_ENABLED" = some v → pyStrip v ≠ "" →
        (mkStorageConfig env sSec fSec lSec rSec pSec).PULL_ENABLED =
          .b (pyLower (pyStrip v) == "true" || pyLower (pyStrip v) == "1")) ∧
    (∀ (env : Env) (sSec fSec lSec rSec pSec : List (String × YVal)),
        (∀ v, envGet env "PULL_ENABLED" = some v → pyStrip v = "") →
        (mkStorageConfig env sSec fSec lSec rSec pSec).PULL_ENABLED =
          yLookupD pSec "enabled" (.b false)) := by
  refine ⟨?_, ?_, ?_, ?_, ?_, ?_, ?_, ?_, ?_, ?_, ?_, ?_, ?_, ?_, ?_, ?_, ?_, ?_⟩
  · intro env sec v h hne
    simp [mkCrawlerConfig, _get_env_bool_of_set h hne]
  · intro env sec h
    simp [mkCrawlerConfig, _get_env_bool_absent h]
  · intro env sec v h hne
    simp [mkReportConfig, _get_env_bool_of_set h hne]
  · intro env sec h
    simp [mkReportConfig, _get_env_bool_absent h]
  · intro env sec v h hne
    simp [mkReportConfig, _get_env_bool_of_set h hne]
  · intro env sec h
    simp [mkReportConfig, _get_env_bool_absent h]
  · intro env sec v h hne
    simp [mkNotifConfig, _get_env_bool_of_set h hne]
  · intro env sec h
    simp [mkNotifConfig, _get_env_bool_absent h]
  · intro env pwSec trSec v h hne
    simp [mkPushWindowConfig, _get_env_bool_of_set h hne]
  · intro env pwSec trSec h
    simp [mkPushWindowConfig, _get_env_bool_absent h]
  · intro env pwSec trSec v h hne
    simp [mkPushWindowConfig, _get_env_bool_of_set h hne]
  · intro env pwSec trSec h
    simp [mkPushWindowConfig, _get_env_bool_absent h]
  · intro env sSec fSec lSec rSec pSec v h hne
    simp [mkStorageConfig, _get_env_bool_of_set h hne]
  · intro env sSec fSec lSec rSec pSec h
    simp [mkStorageConfig, _get_env_bool_absent h]
  · intro env sSec fSec lSec rSec pSec v h hne
    simp [mkStorageConfig, _get_env_bool_of_set h hne]
  · intro env sSec fSec lSec rSec pSec h
    simp [mkStorageConfig, _get_env_bool_absent h]
  · intro env sSec fSec lSec rSec pSec v h hne
    simp [mkStorageConfig, _get_env_bool_of_set h hne]
  · intro env sSec fSec lSec rSec pSec h
    simp [mkStorageConfig, _get_env_bool_absent h]

/-- Witness for C3: `"TRUE"` and `" 1 "` resolve to `true`, `"no"` to
`false` despite a `true` file value, and an unset variable falls back to
the file value. -/
theorem boolEnvOverrideSemantics_witness :
    (mkCrawlerConfig [("ENABLE_CRAWLER", "TRUE")] []).ENABLE_CRAWLER = YVal.b true ∧
    (mkReportConfig [("SORT_BY_POSITION_FIRST", " 1 ")] []).SORT_BY_POSITION_FIRST =
      YVal.b true ∧
    (mkNotifConfig [("ENABLE_NOTIFICATION", "no")]
        [("enable_notification", YVal.b true)]).ENABLE_NOTIFICATION = YVal.b false ∧
    (mkStorageConfig [] [] [("txt", YVal.b false)] [] [] []).FORMATS_TXT = YVal.b false := by
  refine ⟨?_, ?_, ?_, ?_⟩
  · exact boolEnvOverrideSemantics.1 _ _ "TRUE" rfl (by decide)
  · exact boolEnvOverrideSemantics.2.2.1 _ _ " 1 " rfl (by decide)
  · exact boolEnvOverrideSemantics.2.2.2.2.2.2.1 _ _ "no" rfl (by decide)
  · exact boolEnvOverrideSemantics.2.2.2.2.2.2.2.2.2.2.2.2.2.1 _ _ _ _ _ _
      (fun v hv => by simp [envGet, List.lookup] at hv)

/-! ## `NTFY_SERVER_URL` resolution (C9) -/

/-- C9 (confirmed): the resolved `NTFY_SERVER_URL` is always truthy (hence
a non-empty string whenever it is a string), because its resolution chain
ends in the literal `"https://ntfy.sh"`; when neither the environment
variable (non-empty after strip) nor the file key supplies a truthy value —
including a file value that is the empty string — it resolves to
`"https://ntfy.sh"`; under the same conditions every other webhook URL
field resolves to the empty string. -/
theorem ntfyServerUrlNeverEmpty :
    (∀ (env : Env) (sec : List (String × YVal)),
        truthy (mkWebhookConfig env sec).NTFY_SERVER_URL = true) ∧
    (∀ (env : Env) (sec : List (String × YVal)) (u : String),
        (mkWebhookConfig env sec).NTFY_SERVER_URL = .s u → u ≠ "") ∧
    (∀ (env : Env) (sec : List (String × YVal)),
        (∀ v, envGet env "NTFY_SERVER_URL" = some v → pyStrip v = "") →
        truthy (yLookupD sec "ntfy_server_url" .none) = false →
        (mkWebhookConfig env sec).NTFY_SERVER_URL = .s "https://ntfy.sh") ∧
    (∀ (env : Env) (sec : List (String × YVal)),
        (∀ v, envGet env "FEISHU_WEBHOOK_URL" = some v → pyStrip v = "") →
        yLookupD sec "feishu_url" (.s "") = .s "" →
        (mkWebhookConfig env sec).FEISHU_WEBHOOK_URL = .s "") ∧
    (∀ (env : Env) (sec : List (String × YVal)),
        (∀ v, envGet env "DINGTALK_WEBHOOK_URL" = some v → pyStrip v = "") →
        yLookupD sec "dingtalk_url" (.s "") = .s "" →
        (mkWebhookConfig env sec).DINGTALK_WEBHOOK_URL = .s "") ∧
    (∀ (env : Env) (sec : List (String × YVal)),
        (∀ v, envGet env "WEWORK_WEBHOOK_URL" = some v → pyStrip v = "") →
        yLookupD sec "wework_url" (.s "") = .s "" →
        (mkWebhookConfig env sec).WEWORK_WEBHOOK_URL = .s "") ∧
    (∀ (env : Env) (sec : List (String × YVal)),
        (∀ v, envGet env "BARK_URL" = some v → pyStrip v = "") →
        yLookupD sec "bark_url" (.s "") = .s "" →
        (mkWebhookConfig env sec).BARK_URL = .s "") ∧
    (∀ (env : Env) (sec : List (String × YVal)),
        (∀ v, envGet env "SLACK_WEBHOOK_URL" = some v → pyStrip v = "") →
        yLookupD sec "slack_webhook_url" (.s "") = .s "" →
        (mkWebhookConfig env sec).SLACK_WEBHOOK_URL = .s "") := by
  have main : ∀ (env : Env) (sec : List (String × YVal)),
      truthy (mkWebhookConfig env sec).NTFY_SERVER_URL = true := by
    intro env sec
    simp only [mkWebhookConfig]
    unfold pyOr3
    split
    · rename_i hs
      simp [truthy, hs]
    · split
      · assumption
      · decide
  refine ⟨main, ?_, ?_, ?_, ?_, ?_, ?_, ?_⟩
  · intro env sec u hu
    have h := main env sec
    rw [hu] at h
    simpa [truthy] using h
  · intro env sec henv hfile
    simp only [mkWebhookConfig]
    rw [_get_env_str_absent henv]
    unfold pyOr3
    rw [if_neg (by simp), if_neg (by simp [hfile])]
  · intro env sec henv hfile
    simp [mkWebhookConfig, _get_env_str_absent henv, pyOrStr_empty, hfile]
  · intro env sec henv hfile
    simp [mkWebhookConfig, _get_env_str_absent henv, pyOrStr_empty, hfile]
  · intro env sec henv hfile
    simp [mkWebhookConfig, _get_env_str_absent henv, pyOrStr_empty, hfile]
  · intro env sec henv hfile
    simp [mkWebhookConfig, _get_env_str_absent henv, pyOrStr_empty, hfile]
  · intro env sec henv hfile
    simp [mkWebhookConfig, _get_env_str_absent henv, pyOrStr_empty, hfile]

/-- Witness for C9: with no environment override and the file key set to
the empty string, `NTFY_SERVER_URL` resolves to the default server while
`FEISHU_WEBHOOK_URL` resolves to the empty string. -/
theorem ntfyServerUrlNeverEmpty_witness :
    truthy (mkWebhookConfig [] [("ntfy_server_url", YVal.s "")]).NTFY_SERVER_URL = true ∧
    (mkWebhookConfig [] [("ntfy_server_url", YVal.s "")]).NTFY_SERVER_URL =
      .s "https://ntfy.sh" ∧
    (mkWebhookConfig [] [("feishu_url", YVal.s "")]).FEISHU_WEBHOOK_URL = .s "" := by
  refine ⟨ntfyServerUrlNeverEmpty.1 _ _, ?_, ?_⟩
  · exact ntfyServerUrlNeverEmpty.2.2.1 _ _
      (fun v hv => by simp [envGet, List.lookup] at hv) (by decide)
  · exact ntfyServerUrlNeverEmpty.2.2.2.1 _ _
      (fun v hv => by simp [envGet, List.lookup] at hv) rfl

/-! ## Lemmas about the channel-summary blocks -/

theorem bind_ok_iff {ε α β : Type} {x : Except ε α} {f : α → Except ε β} {b : β} :
    (x >>= f) = .ok b ↔ ∃ a, x = .ok a ∧ f a = .ok b := by
  cases x <;> simp [Bind.bind, Except.bind]

/-- Every line a simple channel block produces carries its own label, its
own source key, and some account count. -/
theorem channelPart_shape {label envKey : String} {env : Env} {maxAccounts url : YVal}
    {ls : List SummaryLine} (h : channelPart label envKey env maxAccounts url = .ok ls) :
    ∀ l ∈ ls, l.channel = label ∧ l.source = envSource env envKey ∧ ∃ c, l.count = some c := by
  intro l hl
  unfold channelPart at h
  split at h
  · obtain ⟨accounts, ha, h⟩ := bind_ok_iff.mp h
    obtain ⟨count, hc, h⟩ := bind_ok_iff.mp h
    simp only [pure, Except.pure, Except.ok.injEq] at h
    subst h
    simp only [List.mem_singleton] at hl
    subst hl
    exact ⟨rfl, rfl, count, rfl⟩
  · simp only [pure, Except.pure, Except.ok.injEq] at h
    subst h
    simp at hl

/-- A simple channel block with a falsy resolved value contributes nothing. -/
theorem channelPart_falsy {label envKey : String} {env : Env} {maxAccounts url : YVal}
    (h : truthy url = false) : channelPart label envKey env maxAccounts url = .ok [] := by
  unfold channelPart
  rw [h]
  rfl

/-- A simple channel block with a non-empty string value and an integer
account cap contributes exactly one line with the capped parsed count. -/
theorem channelPart_of_str {label envKey : String} {env : Env} {str : String} {m : Int}
    (hne : str ≠ "") :
    channelPart label envKey env (.i m) (.s str) =
      .ok [⟨label, envSource env envKey,
        some (min ((parse_multi_account_config str).length : Int) m)⟩] := by
  unfold channelPart
  rw [if_pos (by simp [truthy, hne])]
  rfl

/-- A simple channel block over an `ok` result is empty iff the resolved
value is falsy. -/
theorem channelPart_empty_iff {label envKey : String} {env : Env} {maxAccounts url : YVal}
    {ls : List SummaryLine} (h : channelPart label envKey env maxAccounts url = .ok ls) :
    ls = [] ↔ truthy url = false := by
  unfold channelPart at h
  split at h
  · rename_i ht
    obtain ⟨accounts, ha, h⟩ := bind_ok_iff.mp h
    obtain ⟨count, hc, h⟩ := bind_ok_iff.mp h
    simp only [pure, Except.pure, Except.ok.injEq] at h
    subst h
    simp [ht]
  · simp only [pure, Except.pure, Except.ok.injEq] at h
    subst h
    simp_all

/-- Every line the Telegram block produces carries the Telegram label, the
bot-token source, and some account count. -/
theorem telegramPart_shape {env : Env} {maxAccounts botToken chatId : YVal}
    {ls : List SummaryLine} (h : telegramPart env maxAccounts botToken chatId = .ok ls) :
    ∀ l ∈ ls, l.channel = "Telegram" ∧ l.source = envSource env "TELEGRAM_BOT_TOKEN" ∧
      ∃ c, l.count = some c := by
  intro l hl
  unfold telegramPart at h
  split at h
  · obtain ⟨tokens, ht, h⟩ := bind_ok_iff.mp h
    obtain ⟨chatIds, hc, h⟩ := bind_ok_iff.mp h
    dsimp only at h
    split at h
    · obtain ⟨count, hm, h⟩ := bind_ok_iff.mp h
      simp only [pure, Except.pure, Except.ok.injEq] at h
      subst h
      simp only [List.mem_singleton] at hl
      subst hl
      exact ⟨rfl, rfl, count, rfl⟩
    · simp only [pure, Except.pure, Except.ok.injEq] at h
      subst h
      simp at hl
  · simp only [pure, Except.pure, Except.ok.injEq] at h
    subst h
    simp at hl

/-- The Telegram block contributes nothing when either field is falsy. -/
theorem telegramPart_falsy {env : Env} {maxAccounts botToken chatId : YVal}
    (h : (truthy botToken && truthy chatId) = false) :
    telegramPart env maxAccounts botToken chatId = .ok [] := by
  unfold telegramPart
  rw [h]
  rfl

/-- The Telegram block with equal-length non-empty paired string fields and
an integer cap contributes one line with the capped pair count. -/
theorem telegramPart_of_str {env : Env} {tb cb : String} {m : Int}
    (htb : tb ≠ "") (hcb : cb ≠ "")
    (hlen : (parse_multi_account_config cb).length = (parse_multi_account_config tb).length)
    (hpos : 0 < (parse_multi_account_config tb).length) :
    telegramPart env (.i m) (.s tb) (.s cb) =
      .ok [⟨"Telegram", envSource env "TELEGRAM_BOT_TOKEN",
        some (min ((parse_multi_account_config tb).length : Int) m)⟩] := by
  unfold telegramPart
  rw [if_pos (by simp [truthy, htb, hcb])]
  show (parseAccountsY (.s tb)) >>= _ = _
  rw [bind_ok_iff]
  refine ⟨_, rfl, ?_⟩
  rw [bind_ok_iff]
  refine ⟨_, rfl, ?_⟩
  dsimp only
  rw [if_pos ?side]
  case side =>
    simp [validate_paired_configs, List.lookup, hlen, hpos]
  rw [bind_ok_iff]
  refine ⟨min ((parse_multi_account_config tb).length : Int) m, ?_, ?_⟩
  · simp [validate_paired_configs, List.lookup, hlen, hpos, pyMin]
  · rfl

/-- Every line the email block produces is exactly the count-free email
line. -/
theorem emailPart_shape {env : Env} {f p t : YVal} {ls : List SummaryLine}
    (h : emailPart env f p t = .ok ls) :
    ∀ l ∈ ls, l = ⟨"邮件", envSource env "EMAIL_FROM", Option.none⟩ := by
  intro l hl
  unfold emailPart at h
  split at h <;> simp only [pure, Except.pure, Except.ok.injEq] at h <;> subst h <;>
    simp at hl
  exact hl

/-- The email block appends its line iff all three fields are truthy. -/
theorem emailPart_cases {env : Env} {f p t : YVal} :
    ((truthy f && truthy p && truthy t) = true ∧
      emailPart env f p t = .ok [⟨"邮件", envSource env "EMAIL_FROM", Option.none⟩]) ∨
    ((truthy f && truthy p && truthy t) = false ∧ emailPart env f p t = .ok []) := by
  unfold emailPart
  cases hc : (truthy f && truthy p && truthy t)
  · right
    exact ⟨rfl, rfl⟩
  · left
    exact ⟨rfl, rfl⟩

/-- Every line the ntfy block produces carries the ntfy label, the server
source, and some account count. -/
theorem ntfyPart_shape {env : Env} {maxAccounts serverUrl topic token : YVal}
    {ls : List SummaryLine} (h : ntfyPart env maxAccounts serverUrl topic token = .ok ls) :
    ∀ l ∈ ls, l.channel = "ntfy" ∧ l.source = envSource env "NTFY_SERVER_URL" ∧
      ∃ c, l.count = some c := by
  intro l hl
  unfold ntfyPart at h
  split at h
  · obtain ⟨topics, ht, h⟩ := bind_ok_iff.mp h
    obtain ⟨tokens, hk, h⟩ := bind_ok_iff.mp h
    dsimp only at h
    split at h
    · split at h
      · obtain ⟨count, hm, h⟩ := bind_ok_iff.mp h
        simp only [pure, Except.pure, Except.ok.injEq] at h
        subst h
        simp only [List.mem_singleton] at hl
        subst hl
        exact ⟨rfl, rfl, count, rfl⟩
      · simp only [pure, Except.pure, Except.ok.injEq] at h
        subst h
        simp at hl
    · obtain ⟨count, hm, h⟩ := bind_ok_iff.mp h
      simp only [pure, Except.pure, Except.ok.injEq] at h
      subst h
      simp only [List.mem_singleton] at hl
      subst hl
      exact ⟨rfl, rfl, count, rfl⟩
  · simp only [pure, Except.pure, Except.ok.injEq] at h
    subst h
    simp at hl

/-- The ntfy block contributes nothing when the server or the topic is
falsy. -/
theorem ntfyPart_falsy {env : Env} {maxAccounts serverUrl topic token : YVal}
    (h : (truthy serverUrl && truthy topic) = false) :
    ntfyPart env maxAccounts serverUrl topic token = .ok [] := by
  unfold ntfyPart
  rw [h]
  rfl

/-- The ntfy block with a truthy server, a non-empty string topic, an empty
string token, and an integer cap contributes one line with the capped topic
count. -/
theorem ntfyPart_of_str {env : Env} {serverUrl : YVal} {t : String} {m : Int}
    (hs : truthy serverUrl = true) (ht : t ≠ "") :
    ntfyPart env (.i m) serverUrl (.s t) (.s "") =
      .ok [⟨"ntfy", envSource env "NTFY_SERVER_URL",
        some (min ((parse_multi_account_config t).length : Int) m)⟩] := by
  unfold ntfyPart
  rw [if_pos (by rw [hs]; simp [truthy, ht])]
  show (parseAccountsY (.s t)) >>= _ = _
  rw [bind_ok_iff]
  refine ⟨_, rfl, ?_⟩
  rw [bind_ok_iff]
  refine ⟨parse_multi_account_config "", rfl, ?_⟩
  dsimp only
  rw [if_neg (by simp [parse_multi_account_config, pySplitOn, splitCharList, pyStrip])]
  rw [bind_ok_iff]
  exact ⟨min ((parse_multi_account_config t).length : Int) m, rfl, rfl⟩

/-- Structure of a successful `_print_notification_sources` run: the eight
blocks each succeed and the output is their concatenation, with the
no-channel flag recording emptiness. -/
theorem print_ok_elim {env : Env} {cfg : Config} {out : SummaryOut}
    (h : _print_notification_sources env cfg = .ok out) :
    ∃ p1 p2 p3 p4 p5 p6 p7 p8,
      feishuPart env cfg.notification.MAX_ACCOUNTS_PER_CHANNEL
        cfg.webhook.FEISHU_WEBHOOK_URL = .ok p1 ∧
      dingtalkPart env cfg.notification.MAX_ACCOUNTS_PER_CHANNEL
        cfg.webhook.DINGTALK_WEBHOOK_URL = .ok p2 ∧
      weworkPart env cfg.notification.MAX_ACCOUNTS_PER_CHANNEL
        cfg.webhook.WEWORK_WEBHOOK_URL = .ok p3 ∧
      telegramPart env cfg.notification.MAX_ACCOUNTS_PER_CHANNEL
        cfg.webhook.TELEGRAM_BOT_TOKEN cfg.webhook.TELEGRAM_CHAT_ID = .ok p4 ∧
      emailPart env cfg.webhook.EMAIL_FROM cfg.webhook.EMAIL_PASSWORD
        cfg.webhook.EMAIL_TO = .ok p5 ∧
      ntfyPart env cfg.notification.MAX_ACCOUNTS_PER_CHANNEL
        cfg.webhook.NTFY_SERVER_URL cfg.webhook.NTFY_TOPIC cfg.webhook.NTFY_TOKEN = .ok p6 ∧
      barkPart env cfg.notification.MAX_ACCOUNTS_PER_CHANNEL
        cfg.webhook.BARK_URL = .ok p7 ∧
      slackPart env cfg.notification.MAX_ACCOUNTS_PER_CHANNEL
        cfg.webhook.SLACK_WEBHOOK_URL = .ok p8 ∧
      out.lines = p1 ++ p2 ++ p3 ++ p4 ++ p5 ++ p6 ++ p7 ++ p8 ∧
      out.noChannel = (p1 ++ p2 ++ p3 ++ p4 ++ p5 ++ p6 ++ p7 ++ p8).isEmpty := by
  unfold _print_notification_sources at h
  dsimp only at h
  obtain ⟨p1, h1, h⟩ := bind_ok_iff.mp h
  obtain ⟨p2, h2, h⟩ := bind_ok_iff.mp h
  obtain ⟨p3, h3, h⟩ := bind_ok_iff.mp h
  obtain ⟨p4, h4, h⟩ := bind_ok_iff.mp h
  obtain ⟨p5, h5, h⟩ := bind_ok_iff.mp h
  obtain ⟨p6, h6, h⟩ := bind_ok_iff.mp h
  obtain ⟨p7, h7, h⟩ := bind_ok_iff.mp h
  obtain ⟨p8, h8, h⟩ := bind_ok_iff.mp h
  simp only [pure, Except.pure, Except.ok.injEq] at h
  subst h
  exact ⟨p1, p2, p3, p4, p5, p6, p7, p8, h1, h2, h3, h4, h5, h6, h7, h8, rfl, rfl⟩

/-- The Telegram block only contributes when both fields are truthy. -/
theorem telegramPart_nonempty {env : Env} {maxAccounts botToken chatId : YVal}
    {ls : List SummaryLine} (h : telegramPart env maxAccounts botToken chatId = .ok ls)
    (hne : ls ≠ []) : (truthy botToken && truthy chatId) = true := by
  by_contra hc
  rw [telegramPart_falsy (Bool.not_eq_true _ ▸ hc)] at h
  exact hne (Except.ok.inj h).symm

/-- The ntfy block only contributes when server and topic are truthy. -/
theorem ntfyPart_nonempty {env : Env} {maxAccounts serverUrl topic token : YVal}
    {ls : List SummaryLine} (h : ntfyPart env maxAccounts serverUrl topic token = .ok ls)
    (hne : ls ≠ []) : (truthy serverUrl && truthy topic) = true := by
  by_contra hc
  rw [ntfyPart_falsy (Bool.not_eq_true _ ▸ hc)] at h
  exact hne (Except.ok.inj h).symm

/-- The email block only contributes when all three fields are truthy. -/
theorem emailPart_nonempty {env : Env} {f p t : YVal} {ls : List SummaryLine}
    (h : emailPart env f p t = .ok ls) (hne : ls ≠ []) :
    (truthy f && truthy p && truthy t) = true := by
  rcases @emailPart_cases env f p t with ⟨hc, he⟩ | ⟨hc, he⟩
  · exact hc
  · rw [he] at h
    exact absurd (Except.ok.inj h).symm hne

/-- A simple channel block only contributes when its value is truthy. -/
theorem channelPart_nonempty {label envKey : String} {env : Env} {maxAccounts url : YVal}
    {ls : List SummaryLine} (h : channelPart label envKey env maxAccounts url = .ok ls)
    (hne : ls ≠ []) : truthy url = true := by
  by_contra hc
  exact hne ((channelPart_empty_iff h).mpr (Bool.not_eq_true _ ▸ hc))

/-- Classification of an arbitrary summary line: it stems from exactly one
of the eight blocks, carrying that block's label, source key and count
shape, and witnessing that the block's condition held. -/
theorem mem_lines_cases {env : Env} {cfg : Config} {out : SummaryOut}
    (h : _print_notification_sources env cfg = .ok out) {l : SummaryLine}
    (hl : l ∈ out.lines) :
    (l.channel = "飞书" ∧ l.source = envSource env "FEISHU_WEBHOOK_URL" ∧
      (∃ c, l.count = some c) ∧ truthy cfg.webhook.FEISHU_WEBHOOK_URL = true) ∨
    (l.channel = "钉钉" ∧ l.source = envSource env "DINGTALK_WEBHOOK_URL" ∧
      (∃ c, l.count = some c) ∧ truthy cfg.webhook.DINGTALK_WEBHOOK_URL = true) ∨
    (l.channel = "企业微信" ∧ l.source = envSource env "WEWORK_WEBHOOK_URL" ∧
      (∃ c, l.count = some c) ∧ truthy cfg.webhook.WEWORK_WEBHOOK_URL = true) ∨
    (l.channel = "Telegram" ∧ l.source = envSource env "TELEGRAM_BOT_TOKEN" ∧
      (∃ c, l.count = some c) ∧
      (truthy cfg.webhook.TELEGRAM_BOT_TOKEN && truthy cfg.webhook.TELEGRAM_CHAT_ID) = true) ∨
    (l = ⟨"邮件", envSource env "EMAIL_FROM", Option.none⟩ ∧
      (truthy cfg.webhook.EMAIL_FROM && truthy cfg.webhook.EMAIL_PASSWORD &&
        truthy cfg.webhook.EMAIL_TO) = true) ∨
    (l.channel = "ntfy" ∧ l.source = envSource env "NTFY_SERVER_URL" ∧
      (∃ c, l.count = some c) ∧
      (truthy cfg.webhook.NTFY_SERVER_URL && truthy cfg.webhook.NTFY_TOPIC) = true) ∨
    (l.channel = "Bark" ∧ l.source = envSource env "BARK_URL" ∧
      (∃ c, l.count = some c) ∧ truthy cfg.webhook.BARK_URL = true) ∨
    (l.channel = "Slack" ∧ l.source = envSource env "SLACK_WEBHOOK_URL" ∧
      (∃ c, l.count = some c) ∧ truthy cfg.webhook.SLACK_WEBHOOK_URL = true) := by
  obtain ⟨p1, p2, p3, p4, p5, p6, p7, p8, h1, h2, h3, h4, h5, h6, h7, h8, hlines, -⟩ :=
    print_ok_elim h
  rw [hlines] at hl
  simp only [List.mem_append] at hl
  rcases hl with ((((((hm | hm) | hm) | hm) | hm) | hm) | hm) | hm
  · obtain ⟨hc, hs, hcount⟩ := channelPart_shape h1 l hm
    exact Or.inl ⟨hc, hs, hcount, channelPart_nonempty h1 (by rintro rfl; simp at hm)⟩
  · obtain ⟨hc, hs, hcount⟩ := channelPart_shape h2 l hm
    exact Or.inr (Or.inl ⟨hc, hs, hcount,
      channelPart_nonempty h2 (by rintro rfl; simp at hm)⟩)
  · obtain ⟨hc, hs, hcount⟩ := channelPart_shape h3 l hm
    exact Or.inr (Or.inr (Or.inl ⟨hc, hs, hcount,
      channelPart_nonempty h3 (by rintro rfl; simp at hm)⟩))
  · obtain ⟨hc, hs, hcount⟩ := telegramPart_shape h4 l hm
    exact Or.inr (Or.inr (Or.inr (Or.inl ⟨hc, hs, hcount,
      telegramPart_nonempty h4 (by rintro rfl; simp at hm)⟩)))
  · have he := emailPart_shape h5 l hm
    exact Or.inr (Or.inr (Or.inr (Or.inr (Or.inl ⟨he,
      emailPart_nonempty h5 (by rintro rfl; simp at hm)⟩))))
  · obtain ⟨hc, hs, hcount⟩ := ntfyPart_shape h6 l hm
    exact Or.inr (Or.inr (Or.inr (Or.inr (Or.inr (Or.inl ⟨hc, hs, hcount,
      ntfyPart_nonempty h6 (by rintro rfl; simp at hm)⟩)))))
  · obtain ⟨hc, hs, hcount⟩ := channelPart_shape h7 l hm
    exact Or.inr (Or.inr (Or.inr (Or.inr (Or.inr (Or.inr (Or.inl ⟨hc, hs, hcount,
      channelPart_nonempty h7 (by rintro rfl; simp at hm)⟩))))))
  · obtain ⟨hc, hs, hcount⟩ := channelPart_shape h8 l hm
    exact Or.inr (Or.inr (Or.inr (Or.inr (Or.inr (Or.inr (Or.inr ⟨hc, hs, hcount,
      channelPart_nonempty h8 (by rintro rfl; simp at hm)⟩))))))

/-! ## Claim theorems about the printed channel summary (C4, C5) -/

/-- An all-falsy webhook record (every resolution fell through to empty
defaults, except the always-truthy ntfy server default), used to build
concrete configurations in examples. -/
def emptyWebhook : WebhookConfig := mkWebhookConfig [] []

/-- A resolved configuration with given webhook fields and account cap and
all other sections resolved from empty file sections under an empty
environment. -/
def plainConfig (w : WebhookConfig) (maxA : YVal) : Config where
  app := mkAppConfig [] []
  crawler := mkCrawlerConfig [] []
  report := mkReportConfig [] []
  notification := { mkNotifConfig [] [] with MAX_ACCOUNTS_PER_CHANNEL := maxA }
  PUSH_WINDOW := mkPushWindowConfig [] [] []
  WEIGHT_CONFIG := mkWeightConfig []
  PLATFORMS := .list []
  STORAGE := mkStorageConfig [] [] [] [] [] []
  webhook := w

/-- C4 (counterexample): a configuration where only the email channel is
configured produces a summary whose single line carries no account count at
all — refuting the claim that the email channel's line states its account
count like every other channel's line. -/
theorem emailLineHasNoCount_counterexample :
    Except.map (fun pr => pr.2) (load_config []
      (fun _ => .parsed (.dict [("notification", .dict [("webhooks",
        .dict [("email_from", .s "a@b"), ("email_password", .s "p"),
          ("email_to", .s "c@d")])])]))
      Option.none) =
      .ok ⟨[⟨"邮件", "配置文件", Option.none⟩], false⟩ ∧
    (∀ c : Int, (Option.none : Option Int) ≠ some c) := by
  exact ⟨rfl, by simp⟩

/-- C4 (corrected): every summary line of the multi-account channels states
the channel name, the configuration source, and the account count
`min(parsed tokens, MAX_ACCOUNTS_PER_CHANNEL)` (for Telegram, the validated
pair count); the email channel's line is the exception — it states only the
channel name and source, never a count. -/
theorem summaryLineCounts :
    ∀ (env : Env) (cfg : Config) (out : SummaryOut),
    _print_notification_sources env cfg = .ok out →
    (∀ str m, cfg.webhook.FEISHU_WEBHOOK_URL = .s str → str ≠ "" →
        cfg.notification.MAX_ACCOUNTS_PER_CHANNEL = .i m →
        (⟨"飞书", envSource env "FEISHU_WEBHOOK_URL",
          some (min ((parse_multi_account_config str).length : Int) m)⟩ : SummaryLine)
          ∈ out.lines) ∧
    (∀ str m, cfg.webhook.DINGTALK_WEBHOOK_URL = .s str → str ≠ "" →
        cfg.notification.MAX_ACCOUNTS_PER_CHANNEL = .i m →
        (⟨"钉钉", envSource env "DINGTALK_WEBHOOK_URL",
          some (min ((parse_multi_account_config str).length : Int) m)⟩ : SummaryLine)
          ∈ out.lines) ∧
    (∀ str m, cfg.webhook.WEWORK_WEBHOOK_URL = .s str → str ≠ "" →
        cfg.notification.MAX_ACCOUNTS_PER_CHANNEL = .i m →
        (⟨"企业微信", envSource env "WEWORK_WEBHOOK_URL",
          some (min ((parse_multi_account_config str).length : Int) m)⟩ : SummaryLine)
          ∈ out.lines) ∧
    (∀ tb cb m, cfg.webhook.TELEGRAM_BOT_TOKEN = .s tb →
        cfg.webhook.TELEGRAM_CHAT_ID = .s cb → tb ≠ "" → cb ≠ "" →
        cfg.notification.MAX_ACCOUNTS_PER_CHANNEL = .i m →
        (parse_multi_account_config cb).length = (parse_multi_account_config tb).length →
        0 < (parse_multi_account_config tb).length →
        (⟨"Telegram", envSource env "TELEGRAM_BOT_TOKEN",
          some (min ((parse_multi_account_config tb).length : Int) m)⟩ : SummaryLine)
          ∈ out.lines) ∧
    (∀ t m, truthy cfg.webhook.NTFY_SERVER_URL = true → cfg.webhook.NTFY_TOPIC = .s t →
        t ≠ "" → cfg.webhook.NTFY_TOKEN = .s "" →
        cfg.notification.MAX_ACCOUNTS_PER_CHANNEL = .i m →
        (⟨"ntfy", envSource env "NTFY_SERVER_URL",
          some (min ((parse_multi_account_config t).length : Int) m)⟩ : SummaryLine)
          ∈ out.lines) ∧
    (∀ str m, cfg.webhook.BARK_URL = .s str → str ≠ "" →
        cfg.notification.MAX_ACCOUNTS_PER_CHANNEL = .i m →
        (⟨"Bark", envSource env "BARK_URL",
          some (min ((parse_multi_account_config str).length : Int) m)⟩ : SummaryLine)
          ∈ out.lines) ∧
    (∀ str m, cfg.webhook.SLACK_WEBHOOK_URL = .s str → str ≠ "" →
        cfg.notification.MAX_ACCOUNTS_PER_CHANNEL = .i m →
        (⟨"Slack", envSource env "SLACK_WEBHOOK_URL",
          some (min ((parse_multi_account_config str).length : Int) m)⟩ : SummaryLine)
          ∈ out.lines) ∧
    ((truthy cfg.webhook.EMAIL_FROM && truthy cfg.webhook.EMAIL_PASSWORD &&
        truthy cfg.webhook.EMAIL_TO) = true →
        (⟨"邮件", envSource env "EMAIL_FROM", Option.none⟩ : SummaryLine) ∈ out.lines) ∧
    (∀ l ∈ out.lines, l.channel = "邮件" → l.count = Option.none) ∧
    (∀ l ∈ out.lines, l.channel ≠ "邮件" → ∃ c, l.count = some c) := by
  intro env cfg out h
  obtain ⟨p1, p2, p3, p4, p5, p6, p7, p8, h1, h2, h3, h4, h5, h6, h7, h8, hlines, -⟩ :=
    print_ok_elim h
  refine ⟨?_, ?_, ?_, ?_, ?_, ?_, ?_, ?_, ?_, ?_⟩
  · intro str m hf hne hm
    rw [hf, hm] at h1
    unfold feishuPart at h1
    rw [channelPart_of_str hne] at h1
    rw [hlines, ← Except.ok.inj h1]
    simp [List.mem_append]
  · intro str m hf hne hm
    rw [hf, hm] at h2
    unfold dingtalkPart at h2
    rw [channelPart_of_str hne] at h2
    rw [hlines, ← Except.ok.inj h2]
    simp [List.mem_append]
  · intro str m hf hne hm
    rw [hf, hm] at h3
    unfold weworkPart at h3
    rw [channelPart_of_str hne] at h3
    rw [hlines, ← Except.ok.inj h3]
    simp [List.mem_append]
  · intro tb cb m htb hcb hnetb hnecb hm hlen hpos
    rw [htb, hcb, hm] at h4
    rw [telegramPart_of_str hnetb hnecb hlen hpos] at h4
    rw [hlines, ← Except.ok.inj h4]
    simp [List.mem_append]
  · intro t m hs htp hne htk hm
    rw [htp, htk, hm] at h6
    rw [ntfyPart_of_str hs hne] at h6
    rw [hlines, ← Except.ok.inj h6]
    simp [List.mem_append]
  · intro str m hf hne hm
    rw [hf, hm] at h7
    unfold barkPart at h7
    rw [channelPart_of_str hne] at h7
    rw [hlines, ← Except.ok.inj h7]
    simp [List.mem_append]
  · intro str m hf hne hm
    rw [hf, hm] at h8
    unfold slackPart at h8
    rw [channelPart_of_str hne] at h8
    rw [hlines, ← Except.ok.inj h8]
    simp [List.mem_append]
  · intro he
    rcases @emailPart_cases env cfg.webhook.EMAIL_FROM
        cfg.webhook.EMAIL_PASSWORD cfg.webhook.EMAIL_TO with
      ⟨-, hp⟩ | ⟨hc, -⟩
    · rw [hp] at h5
      rw [hlines, ← Except.ok.inj h5]
      simp [List.mem_append]
    · rw [he] at hc
      cases hc
  · intro l hl hch
    rcases mem_lines_cases h hl with
      ⟨hc, -⟩ | ⟨hc, -⟩ | ⟨hc, -⟩ | ⟨hc, -⟩ | ⟨hc, -⟩ | ⟨hc, -⟩ | ⟨hc, -⟩ | ⟨hc, -⟩
    · rw [hc] at hch; exact absurd hch (by decide)
    · rw [hc] at hch; exact absurd hch (by decide)
    · rw [hc] at hch; exact absurd hch (by decide)
    · rw [hc] at hch; exact absurd hch (by decide)
    · rw [hc]
    · rw [hc] at hch; exact absurd hch (by decide)
    · rw [hc] at hch; exact absurd hch (by decide)
    · rw [hc] at hch; exact absurd hch (by decide)
  · intro l hl hch
    rcases mem_lines_cases h hl with
      ⟨hc, -, hcount, -⟩ | ⟨hc, -, hcount, -⟩ | ⟨hc, -, hcount, -⟩ | ⟨hc, -, hcount, -⟩ |
      ⟨hc, -⟩ | ⟨hc, -, hcount, -⟩ | ⟨hc, -, hcount, -⟩ | ⟨hc, -, hcount, -⟩
    · exact hcount
    · exact hcount
    · exact hcount
    · exact hcount
    · rw [hc] at hch
      exact absurd rfl hch
    · exact hcount
    · exact hcount
    · exact hcount

/-- A configuration whose only channel is 飞书 with five comma-separated
accounts, capped at 3. -/
def fiveAccountConfig : Config :=
  plainConfig { emptyWebhook with FEISHU_WEBHOOK_URL := .s "a,b,c,d,e" } (.i 3)

/-- A configuration whose only channel is email. -/
def emailOnlyConfig : Config :=
  plainConfig { emptyWebhook with EMAIL_FROM := .s "a@b", EMAIL_PASSWORD := .s "p", EMAIL_TO := .s "c@d" } (.i 3)

/-- Witness for C4 (corrected): with a cap of 3 and five parsed tokens the
飞书 line reports count 3, and a fully configured email channel yields the
count-free email line. -/
theorem summaryLineCounts_witness :
    (⟨"飞书", "配置文件", some 3⟩ : SummaryLine) ∈
      (SummaryOut.mk [⟨"飞书", "配置文件", some 3⟩] false).lines ∧
    (⟨"邮件", "配置文件", Option.none⟩ : SummaryLine) ∈
      (SummaryOut.mk [⟨"邮件", "配置文件", Option.none⟩] false).lines := by
  constructor
  · exact (summaryLineCounts [] fiveAccountConfig
      ⟨[⟨"飞书", "配置文件", some 3⟩], false⟩ rfl).1 "a,b,c,d,e" 3 rfl (by decide) rfl
  · exact (summaryLineCounts [] emailOnlyConfig
      ⟨[⟨"邮件", "配置文件", Option.none⟩], false⟩ rfl).2.2.2.2.2.2.2.1 (by decide)

/-- C5 (counterexample): a file whose 飞书 webhook is the bare delimiter
string `","` parses to zero accounts, yet the channel still contributes a
line (count 0) and the no-channel message is not produced — refuting both
halves of the claim that lines appear only for positive account counts. -/
theorem zeroCountLine_counterexample :
    Except.map (fun pr => pr.2) (load_config []
      (fun _ => .parsed (.dict [("notification", .dict [("webhooks",
        .dict [("feishu_url", .s ",")])])]))
      Option.none) =
      .ok ⟨[⟨"飞书", "配置文件", some 0⟩], false⟩ ∧
    ¬ ((0 : Int) > 0) := by
  exact ⟨rfl, by decide⟩

/-- C5 (corrected): a channel contributes a summary line exactly when its
resolved field is truthy (for Telegram and ntfy both fields, with pairing
for Telegram), regardless of whether the parsed account count is positive;
the no-channel message is produced exactly when no line was contributed,
which under all-falsy channel fields indeed happens. -/
theorem summaryChannelPresence :
    (∀ (env : Env) (cfg : Config) (out : SummaryOut),
        _print_notification_sources env cfg = .ok out →
        out.noChannel = out.lines.isEmpty) ∧
    (∀ (env : Env) (cfg : Config) (out : SummaryOut),
        _print_notification_sources env cfg = .ok out →
        ((∃ s c, (⟨"飞书", s, c⟩ : SummaryLine) ∈ out.lines) ↔
          truthy cfg.webhook.FEISHU_WEBHOOK_URL = true)) ∧
    (∀ (env : Env) (cfg : Config) (out : SummaryOut),
        _print_notification_sources env cfg = .ok out →
        ((∃ s c, (⟨"钉钉", s, c⟩ : SummaryLine) ∈ out.lines) ↔
          truthy cfg.webhook.DINGTALK_WEBHOOK_URL = true)) ∧
    (∀ (env : Env) (cfg : Config) (out : SummaryOut),
        _print_notification_sources env cfg = .ok out →
        ((∃ s c, (⟨"企业微信", s, c⟩ : SummaryLine) ∈ out.lines) ↔
          truthy cfg.webhook.WEWORK_WEBHOOK_URL = true)) ∧
    (∀ (env : Env) (cfg : Config) (out : SummaryOut),
        _print_notification_sources env cfg = .ok out →
        ((∃ s c, (⟨"Bark", s, c⟩ : SummaryLine) ∈ out.lines) ↔
          truthy cfg.webhook.BARK_URL = true)) ∧
    (∀ (env : Env) (cfg : Config) (out : SummaryOut),
        _print_notification_sources env cfg = .ok out →
        ((∃ s c, (⟨"Slack", s, c⟩ : SummaryLine) ∈ out.lines) ↔
          truthy cfg.webhook.SLACK_WEBHOOK_URL = true)) ∧
    (∀ (env : Env) (cfg : Config) (out : SummaryOut),
        _print_notification_sources env cfg = .ok out →
        ((∃ s, (⟨"邮件", s, Option.none⟩ : SummaryLine) ∈ out.lines) ↔
          (truthy cfg.webhook.EMAIL_FROM && truthy cfg.webhook.EMAIL_PASSWORD &&
            truthy cfg.webhook.EMAIL_TO) = true)) ∧
    (∀ (env : Env) (cfg : Config) (out : SummaryOut),
        _print_notification_sources env cfg = .ok out →
        ∀ s c, (⟨"Telegram", s, c⟩ : SummaryLine) ∈ out.lines →
        (truthy cfg.webhook.TELEGRAM_BOT_TOKEN &&
          truthy cfg.webhook.TELEGRAM_CHAT_ID) = true) ∧
    (∀ (env : Env) (cfg : Config) (out : SummaryOut),
        _print_notification_sources env cfg = .ok out →
        ∀ s c, (⟨"ntfy", s, c⟩ : SummaryLine) ∈ out.lines →
        (truthy cfg.webhook.NTFY_SERVER_URL && truthy cfg.webhook.NTFY_TOPIC) = true) ∧
    (∀ (env : Env) (cfg : Config) (out : SummaryOut),
        _print_notification_sources env cfg = .ok out →
        truthy cfg.webhook.FEISHU_WEBHOOK_URL = false →
        truthy cfg.webhook.DINGTALK_WEBHOOK_URL = false →
        truthy cfg.webhook.WEWORK_WEBHOOK_URL = false →
        (truthy cfg.webhook.TELEGRAM_BOT_TOKEN &&
          truthy cfg.webhook.TELEGRAM_CHAT_ID) = false →
        (truthy cfg.webhook.EMAIL_FROM && truthy cfg.webhook.EMAIL_PASSWORD &&
          truthy cfg.webhook.EMAIL_TO) = false →
        (truthy cfg.webhook.NTFY_SERVER_URL && truthy cfg.webhook.NTFY_TOPIC) = false →
        truthy cfg.webhook.BARK_URL = false →
        truthy cfg.webhook.SLACK_WEBHOOK_URL = false →
        out.lines = [] ∧ out.noChannel = true) := by
  have hsimple : ∀ (label envKey : String) (env : Env) (M u : YVal)
      (ls : List SummaryLine), channelPart label envKey env M u = .ok ls →
      ((∃ s c, (⟨label, s, c⟩ : SummaryLine) ∈ ls) ↔ truthy u = true) := by
    intro label envKey env M u ls h
    constructor
    · intro ⟨s, c, hm⟩
      exact channelPart_nonempty h (by rintro rfl; simp at hm)
    · intro ht
      cases ls with
      | nil =>
        rw [(channelPart_empty_iff h).mp rfl] at ht
        cases ht
      | cons l rest =>
        obtain ⟨hc, -, c, -⟩ := channelPart_shape h l (List.mem_cons_self l rest)
        refine ⟨l.source, l.count, ?_⟩
        have hl2 : (⟨label, l.source, l.count⟩ : SummaryLine) = l := by
          cases l
          simp_all
        rw [hl2]
        exact List.mem_cons_self l rest
  refine ⟨?_, ?_, ?_, ?_, ?_, ?_, ?_, ?_, ?_, ?_⟩
  · intro env cfg out h
    obtain ⟨p1, p2, p3, p4, p5, p6, p7, p8, -, -, -, -, -, -, -, -, hlines, hflag⟩ :=
      print_ok_elim h
    rw [hflag, hlines]
  · intro env cfg out h
    obtain ⟨p1, p2, p3, p4, p5, p6, p7, p8, h1, h2, h3, h4, h5, h6, h7, h8, hlines, -⟩ :=
      print_ok_elim h
    unfold feishuPart at h1
    constructor
    · intro ⟨s, c, hm⟩
      rcases mem_lines_cases h hm with
        ⟨-, -, -, ht⟩ | ⟨hc, -⟩ | ⟨hc, -⟩ | ⟨hc, -⟩ | ⟨hc, -⟩ | ⟨hc, -⟩ | ⟨hc, -⟩ | ⟨hc, -⟩
      · exact ht
      all_goals simp at hc
    · intro ht
      obtain ⟨s, c, hm⟩ := (hsimple _ _ _ _ _ _ h1).mpr ht
      refine ⟨s, c, ?_⟩
      rw [hlines]
      simp [List.mem_append, hm]
  · intro env cfg out h
    obtain ⟨p1, p2, p3, p4, p5, p6, p7, p8, h1, h2, h3, h4, h5, h6, h7, h8, hlines, -⟩ :=
      print_ok_elim h
    unfold dingtalkPart at h2
    constructor
    · intro ⟨s, c, hm⟩
      rcases mem_lines_cases h hm with
        ⟨hc, -⟩ | ⟨-, -, -, ht⟩ | ⟨hc, -⟩ | ⟨hc, -⟩ | ⟨hc, -⟩ | ⟨hc, -⟩ | ⟨hc, -⟩ | ⟨hc, -⟩
      · simp at hc
      · exact ht
      all_goals simp at hc
    · intro ht
      obtain ⟨s, c, hm⟩ := (hsimple _ _ _ _ _ _ h2).mpr ht
      refine ⟨s, c, ?_⟩
      rw [hlines]
      simp [List.mem_append, hm]
  · intro env cfg out h
    obtain ⟨p1, p2, p3, p4, p5, p6, p7, p8, h1, h2, h3, h4, h5, h6, h7, h8, hlines, -⟩ :=
      print_ok_elim h
    unfold weworkPart at h3
    constructor
    · intro ⟨s, c, hm⟩
      rcases mem_lines_cases h hm with
        ⟨hc, -⟩ | ⟨hc, -⟩ | ⟨-, -, -, ht⟩ | ⟨hc, -⟩ | ⟨hc, -⟩ | ⟨hc, -⟩ | ⟨hc, -⟩ | ⟨hc, -⟩
      · simp at hc
      · simp at hc
      · exact ht
      all_goals simp at hc
    · intro ht
      obtain ⟨s, c, hm⟩ := (hsimple _ _ _ _ _ _ h3).mpr ht
      refine ⟨s, c, ?_⟩
      rw [hlines]
      simp [List.mem_append, hm]
  · intro env cfg out h
    obtain ⟨p1, p2, p3, p4, p5, p6, p7, p8, h1, h2, h3, h4, h5, h6, h7, h8, hlines, -⟩ :=
      print_ok_elim h
    unfold barkPart at h7
    constructor
    · intro ⟨s, c, hm⟩
      rcases mem_lines_cases h hm with
        ⟨hc, -⟩ | ⟨hc, -⟩ | ⟨hc, -⟩ | ⟨hc, -⟩ | ⟨hc, -⟩ | ⟨hc, -⟩ | ⟨-, -, -, ht⟩ | ⟨hc, -⟩
      · simp at hc
      · simp at hc
      · simp at hc
      · simp at hc
      · simp at hc
      · simp at hc
      · exact ht
      · simp at hc
    · intro ht
      obtain ⟨s, c, hm⟩ := (hsimple _ _ _ _ _ _ h7).mpr ht
      refine ⟨s, c, ?_⟩
      rw [hlines]
      simp [List.mem_append, hm]
  · intro env cfg out h
    obtain ⟨p1, p2, p3, p4, p5, p6, p7, p8, h1, h2, h3, h4, h5, h6, h7, h8, hlines, -⟩ :=
      print_ok_elim h
    unfold slackPart at h8
    constructor
    · intro ⟨s, c, hm⟩
      rcases mem_lines_cases h hm with
        ⟨hc, -⟩ | ⟨hc, -⟩ | ⟨hc, -⟩ | ⟨hc, -⟩ | ⟨hc, -⟩ | ⟨hc, -⟩ | ⟨hc, -⟩ | ⟨-, -, -, ht⟩
      · simp at hc
      · simp at hc
      · simp at hc
      · simp at hc
      · simp at hc
      · simp at hc
      · simp at hc
      · exact ht
    · intro ht
      obtain ⟨s, c, hm⟩ := (hsimple _ _ _ _ _ _ h8).mpr ht
      refine ⟨s, c, ?_⟩
      rw [hlines]
      simp [List.mem_append, hm]
  · intro env cfg out h
    obtain ⟨p1, p2, p3, p4, p5, p6, p7, p8, h1, h2, h3, h4, h5, h6, h7, h8, hlines, -⟩ :=
      print_ok_elim h
    constructor
    · intro ⟨s, hm⟩
      rcases mem_lines_cases h hm with
        ⟨hc, -⟩ | ⟨hc, -⟩ | ⟨hc, -⟩ | ⟨hc, -⟩ | ⟨-, ht⟩ | ⟨hc, -⟩ | ⟨hc, -⟩ | ⟨hc, -⟩
      · simp at hc
      · simp at hc
      · simp at hc
      · simp at hc
      · exact ht
      · simp at hc
      · simp at hc
      · simp at hc
    · intro ht
      rcases @emailPart_cases env cfg.webhook.EMAIL_FROM
          cfg.webhook.EMAIL_PASSWORD cfg.webhook.EMAIL_TO with
        ⟨-, hp⟩ | ⟨hc, -⟩
      · rw [hp] at h5
        refine ⟨envSource env "EMAIL_FROM", ?_⟩
        rw [hlines, ← Except.ok.inj h5]
        simp [List.mem_append]
      · rw [ht] at hc
        cases hc
  · intro env cfg out h s c hm
    rcases mem_lines_cases h hm with
      ⟨hc, -⟩ | ⟨hc, -⟩ | ⟨hc, -⟩ | ⟨-, -, -, ht⟩ | ⟨hc, -⟩ | ⟨hc, -⟩ | ⟨hc, -⟩ | ⟨hc, -⟩
    · simp at hc
    · simp at hc
    · simp at hc
    · exact ht
    · simp at hc
    · simp at hc
    · simp at hc
    · simp at hc
  · intro env cfg out h s c hm
    rcases mem_lines_cases h hm with
      ⟨hc, -⟩ | ⟨hc, -⟩ | ⟨hc, -⟩ | ⟨hc, -⟩ | ⟨hc, -⟩ | ⟨-, -, -, ht⟩ | ⟨hc, -⟩ | ⟨hc, -⟩
    · simp at hc
    · simp at hc
    · simp at hc
    · simp at hc
    · simp at hc
    · exact ht
    · simp at hc
    · simp at hc
  · intro env cfg out h hf hd hw htg he hn hb hs
    obtain ⟨p1, p2, p3, p4, p5, p6, p7, p8, h1, h2, h3, h4, h5, h6, h7, h8, hlines, hflag⟩ :=
      print_ok_elim h
    unfold feishuPart at h1
    unfold dingtalkPart at h2
    unfold weworkPart at h3
    unfold barkPart at h7
    unfold slackPart at h8
    rw [channelPart_falsy hf] at h1
    rw [channelPart_falsy hd] at h2
    rw [channelPart_falsy hw] at h3
    rw [telegramPart_falsy htg] at h4
    rw [ntfyPart_falsy hn] at h6
    rw [channelPart_falsy hb] at h7
    rw [channelPart_falsy hs] at h8
    rcases @emailPart_cases env cfg.webhook.EMAIL_FROM
        cfg.webhook.EMAIL_PASSWORD cfg.webhook.EMAIL_TO with
      ⟨hc, -⟩ | ⟨-, hp⟩
    · rw [he] at hc
      cases hc
    · rw [hp] at h5
      have e1 := Except.ok.inj h1
      have e2 := Except.ok.inj h2
      have e3 := Except.ok.inj h3
      have e4 := Except.ok.inj h4
      have e5 := Except.ok.inj h5
      have e6 := Except.ok.inj h6
      have e7 := Except.ok.inj h7
      have e8 := Except.ok.inj h8
      rw [hlines, hflag, ← e1, ← e2, ← e3, ← e4, ← e5, ← e6, ← e7, ← e8]
      exact ⟨rfl, rfl⟩

/-- Witness for C5 (corrected): under the five-account 飞书 configuration a
飞书 line is present, and under an entirely unconfigured webhook record the
summary is empty with the no-channel message. -/
theorem summaryChannelPresence_witness :
    (∃ s c, (⟨"飞书", s, c⟩ : SummaryLine) ∈
      (SummaryOut.mk [⟨"飞书", "配置文件", some 3⟩] false).lines) ∧
    ((SummaryOut.mk [] true).lines = [] ∧ (SummaryOut.mk [] true).noChannel = true) := by
  constructor
  · exact (summaryChannelPresence.2.1 [] fiveAccountConfig
      ⟨[⟨"飞书", "配置文件", some 3⟩], false⟩ rfl).mpr (by decide)
  · exact summaryChannelPresence.2.2.2.2.2.2.2.2.2 [] (plainConfig emptyWebhook (.i 3))
      ⟨[], true⟩ rfl (by decide) (by decide) (by decide) (by decide) (by decide) (by decide)
      (by decide) (by decide)

/-! ## Source labels of the summary (C6) and the email channel (C10) -/

/-- C6 (counterexample): with `FEISHU_WEBHOOK_URL` set to a whitespace-only
string, the resolved value falls through to the file (`"u1"`), yet the
summary line reports the source as 环境变量 (environment) — the claim
requires such a line to report "file". -/
theorem whitespaceSourceLabel_counterexample :
    Except.map (fun pr => (pr.1.webhook.FEISHU_WEBHOOK_URL, pr.2.lines))
      (load_config [("FEISHU_WEBHOOK_URL", " ")]
        (fun _ => .parsed (.dict [("notification", .dict [("webhooks",
          .dict [("feishu_url", .s "u1")])])]))
        Option.none) =
      .ok (.s "u1", [⟨"飞书", "环境变量", some 1⟩]) ∧
    pyStrip " " = "" ∧ ("环境变量" : String) ≠ "配置文件" := by
  exact ⟨rfl, rfl, by decide⟩

/-- C6 (corrected): the reported configuration source is "environment"
exactly when the raw (untrimmed) environment value is a non-empty string —
a whitespace-only variable is therefore labelled "environment" even though
its value falls through to the file value. -/
theorem sourceLabelRawEnv :
    (∀ (env : Env) (key : String),
        envSource env key = "环境变量" ↔ ∃ s, envGet env key = some s ∧ s ≠ "") ∧
    (∀ (env : Env) (key : String),
        envSource env key = "环境变量" ∨ envSource env key = "配置文件") ∧
    (∀ (env : Env) (sec : List (String × YVal)) (v : String),
        envGet env "FEISHU_WEBHOOK_URL" = some v → pyStrip v = "" →
        (mkWebhookConfig env sec).FEISHU_WEBHOOK_URL = yLookupD sec "feishu_url" (.s "")) := by
  refine ⟨?_, ?_, ?_⟩
  · intro env key
    unfold envSource
    cases he : envGet env key with
    | none => simp
    | some s =>
      by_cases hs : s = ""
      · subst hs
        simp
      · simp [hs]
  · intro env key
    unfold envSource
    cases envGet env key with
    | none => exact Or.inr rfl
    | some s =>
      by_cases hs : s = ""
      · subst hs
        simp
      · simp [hs]
  · intro env sec v h hb
    simp [mkWebhookConfig, _get_env_str_blank h hb, pyOrStr_empty]

/-- Witness for C6 (corrected): a whitespace-only variable is labelled
环境变量 while its value falls through to the file value. -/
theorem sourceLabelRawEnv_witness :
    envSource [("FEISHU_WEBHOOK_URL", " ")] "FEISHU_WEBHOOK_URL" = "环境变量" ∧
    (mkWebhookConfig [("FEISHU_WEBHOOK_URL", " ")]
      [("feishu_url", YVal.s "u1")]).FEISHU_WEBHOOK_URL = YVal.s "u1" := by
  constructor
  · exact (sourceLabelRawEnv.1 _ _).mpr ⟨" ", rfl, by decide⟩
  · exact sourceLabelRawEnv.2.2 _ _ " " rfl rfl

/-- C10 (confirmed): given string-typed resolved email fields, the email
channel appears in the summary exactly when `EMAIL_FROM`, `EMAIL_PASSWORD`
and `EMAIL_TO` are all non-empty, and the resolved `EMAIL_SMTP_SERVER` and
`EMAIL_SMTP_PORT` have no effect whatsoever on the summary. -/
theorem emailConfiguredIff :
    (∀ (env : Env) (cfg : Config) (out : SummaryOut),
        _print_notification_sources env cfg = .ok out →
        ∀ f p t, cfg.webhook.EMAIL_FROM = .s f → cfg.webhook.EMAIL_PASSWORD = .s p →
        cfg.webhook.EMAIL_TO = .s t →
        ((⟨"邮件", envSource env "EMAIL_FROM", Option.none⟩ : SummaryLine) ∈ out.lines ↔
          (f ≠ "" ∧ p ≠ "" ∧ t ≠ ""))) ∧
    (∀ (env : Env) (cfg : Config) (v1 v2 : YVal),
        _print_notification_sources env
          { cfg with webhook :=
            { cfg.webhook with EMAIL_SMTP_SERVER := v1, EMAIL_SMTP_PORT := v2 } } =
        _print_notification_sources env cfg) := by
  constructor
  · intro env cfg out h f p t hf hp ht
    constructor
    · intro hm
      rcases mem_lines_cases h hm with
        ⟨hc, -⟩ | ⟨hc, -⟩ | ⟨hc, -⟩ | ⟨hc, -⟩ | ⟨-, htr⟩ | ⟨hc, -⟩ | ⟨hc, -⟩ | ⟨hc, -⟩
      · simp at hc
      · simp at hc
      · simp at hc
      · simp at hc
      · rw [hf, hp, ht] at htr
        simp only [truthy, Bool.and_eq_true, bne_iff_ne, ne_eq] at htr
        exact ⟨htr.1.1, htr.1.2, htr.2⟩
      · simp at hc
      · simp at hc
      · simp at hc
    · intro ⟨hfne, hpne, htne⟩
      obtain ⟨p1, p2, p3, p4, p5, p6, p7, p8, -, -, -, -, h5, -, -, -, hlines, -⟩ :=
        print_ok_elim h
      rcases @emailPart_cases env cfg.webhook.EMAIL_FROM
          cfg.webhook.EMAIL_PASSWORD cfg.webhook.EMAIL_TO with
        ⟨-, hpart⟩ | ⟨hc, -⟩
      · rw [hpart] at h5
        rw [hlines, ← Except.ok.inj h5]
        simp [List.mem_append]
      · rw [hf, hp, ht] at hc
        simp [truthy, hfne, hpne, htne] at hc
  · intro env cfg v1 v2
    rfl

/-- Witness for C10: under the email-only configuration the email line is
present, and replacing the SMTP fields leaves the summary unchanged. -/
theorem emailConfiguredIff_witness :
    (⟨"邮件", "配置文件", Option.none⟩ : SummaryLine) ∈
      (SummaryOut.mk [⟨"邮件", "配置文件", Option.none⟩] false).lines ∧
    _print_notification_sources []
      { emailOnlyConfig with webhook :=
        { emailOnlyConfig.webhook with EMAIL_SMTP_SERVER := .s "smtp.x", EMAIL_SMTP_PORT := .s "465" } } =
    _print_notification_sources [] emailOnlyConfig := by
  constructor
  · exact (emailConfiguredIff.1 [] emailOnlyConfig
      ⟨[⟨"邮件", "配置文件", Option.none⟩], false⟩ rfl "a@b" "p" "c@d" rfl rfl rfl).mpr
      ⟨by decide, by decide, by decide⟩
  · exact emailConfiguredIff.2 [] emailOnlyConfig (.s "smtp.x") (.s "465")

/-! ## When does `load_config` succeed? (C1) -/

/-- The value stored under `key`, when it is a mapping; `[]` otherwise. -/
def subDict (m : List (String × YVal)) (key : String) : List (String × YVal) :=
  match List.lookup key m with
  | some (.dict es) => es
  | _ => []

/-- The value under `key` is a mapping or absent. -/
def dictOk (m : List (String × YVal)) (key : String) : Bool :=
  match List.lookup key m with
  | some (.dict _) => true
  | some _ => false
  | Option.none => true

/-- The value under `key` is a string or absent. -/
def strOk (m : List (String × YVal)) (key : String) : Bool :=
  match List.lookup key m with
  | some (.s _) => true
  | some _ => false
  | Option.none => true

/-- The value under `key` is an int, a bool, or absent. -/
def intLikeOk (m : List (String × YVal)) (key : String) : Bool :=
  match List.lookup key m with
  | some (.i _) => true
  | some (.b _) => true
  | some _ => false
  | Option.none => true

/-- Shape of parsed file content under which `load_config` is guaranteed to
succeed: a top-level mapping whose sections (where present) are mappings,
whose account-bearing webhook fields (where present) are strings, and whose
account cap (where present) is an int or bool. -/
def configShapeOk (v : YVal) : Bool :=
  match v with
  | .dict m =>
    dictOk m "app" && dictOk m "crawler" && dictOk m "report" && dictOk m "weight" &&
    dictOk m "notification" && dictOk m "storage" &&
    dictOk (subDict m "notification") "push_window" &&
    dictOk (subDict (subDict m "notification") "push_window") "time_range" &&
    dictOk (subDict m "notification") "webhooks" &&
    intLikeOk (subDict m "notification") "max_accounts_per_channel" &&
    strOk (subDict (subDict m "notification") "webhooks") "feishu_url" &&
    strOk (subDict (subDict m "notification") "webhooks") "dingtalk_url" &&
    strOk (subDict (subDict m "notification") "webhooks") "wework_url" &&
    strOk (subDict (subDict m "notification") "webhooks") "telegram_bot_token" &&
    strOk (subDict (subDict m "notification") "webhooks") "telegram_chat_id" &&
    strOk (subDict (subDict m "notification") "webhooks") "ntfy_topic" &&
    strOk (subDict (subDict m "notification") "webhooks") "ntfy_token" &&
    strOk (subDict (subDict m "notification") "webhooks") "bark_url" &&
    strOk (subDict (subDict m "notification") "webhooks") "slack_webhook_url" &&
    dictOk (subDict m "storage") "formats" && dictOk (subDict m "storage") "local" &&
    dictOk (subDict m "storage") "remote" && dictOk (subDict m "storage") "pull"
  | _ => false

theorem ok_bind {ε α β : Type} {a : α} {f : α → Except ε β} :
    ((Except.ok a : Except ε α) >>= f) = f a := rfl

theorem dictOk_asDict {m : List (String × YVal)} {key : String} (h : dictOk m key = true) :
    asDict (yLookupD m key (.dict [])) = .ok (subDict m key) := by
  unfold dictOk at h
  unfold yLookupD subDict
  cases hl : List.lookup key m with
  | none => simp [asDict]
  | some v =>
    rw [hl] at h
    cases v <;> simp_all [asDict]

theorem _load_app_config_ok {env : Env} {m : List (String × YVal)}
    (h : dictOk m "app" = true) :
    _load_app_config env (.dict m) = .ok (mkAppConfig env (subDict m "app")) := by
  unfold _load_app_config
  rw [show yAttrGet (YVal.dict m) "app" (.dict []) = .ok (yLookupD m "app" (.dict [])) from
    rfl, ok_bind, dictOk_asDict h, ok_bind]
  rfl

theorem _load_crawler_config_ok {env : Env} {m : List (String × YVal)}
    (h : dictOk m "crawler" = true) :
    _load_crawler_config env (.dict m) = .ok (mkCrawlerConfig env (subDict m "crawler")) := by
  unfold _load_crawler_config
  rw [show yAttrGet (YVal.dict m) "crawler" (.dict []) =
    .ok (yLookupD m "crawler" (.dict [])) from rfl, ok_bind, dictOk_asDict h, ok_bind]
  rfl

theorem _load_report_config_ok {env : Env} {m : List (String × YVal)}
    (h : dictOk m "report" = true) :
    _load_report_config env (.dict m) = .ok (mkReportConfig env (subDict m "report")) := by
  unfold _load_report_config
  rw [show yAttrGet (YVal.dict m) "report" (.dict []) =
    .ok (yLookupD m "report" (.dict [])) from rfl, ok_bind, dictOk_asDict h, ok_bind]
  rfl

theorem _load_notification_config_ok {env : Env} {m : List (String × YVal)}
    (h : dictOk m "notification" = true) :
    _load_notification_config env (.dict m) =
      .ok (mkNotifConfig env (subDict m "notification")) := by
  unfold _load_notification_config
  rw [show yAttrGet (YVal.dict m) "notification" (.dict []) =
    .ok (yLookupD m "notification" (.dict [])) from rfl, ok_bind, dictOk_asDict h, ok_bind]
  rfl

theorem _load_weight_config_ok {m : List (String × YVal)}
    (h : dictOk m "weight" = true) :
    _load_weight_config (.dict m) = .ok (mkWeightConfig (subDict m "weight")) := by
  unfold _load_weight_config
  rw [show yAttrGet (YVal.dict m) "weight" (.dict []) =
    .ok (yLookupD m "weight" (.dict [])) from rfl, ok_bind, dictOk_asDict h, ok_bind]
  rfl

theorem _load_push_window_config_ok {env : Env} {m : List (String × YVal)}
    (h1 : dictOk m "notification" = true)
    (h2 : dictOk (subDict m "notification") "push_window" = true)
    (h3 : dictOk (subDict (subDict m "notification") "push_window") "time_range" = true) :
    _load_push_window_config env (.dict m) =
      .ok (mkPushWindowConfig env (subDict (subDict m "notification") "push_window")
        (subDict (subDict (subDict m "notification") "push_window") "time_range")) := by
  unfold _load_push_window_config
  rw [show yAttrGet (YVal.dict m) "notification" (.dict []) =
    .ok (yLookupD m "notification" (.dict [])) from rfl, ok_bind, dictOk_asDict h1, ok_bind,
    dictOk_asDict h2, ok_bind, dictOk_asDict h3, ok_bind]
  rfl

theorem _load_storage_config_ok {env : Env} {m : List (String × YVal)}
    (h1 : dictOk m "storage" = true)
    (h2 : dictOk (subDict m "storage") "formats" = true)
    (h3 : dictOk (subDict m "storage") "local" = true)
    (h4 : dictOk (subDict m "storage") "remote" = true)
    (h5 : dictOk (subDict m "storage") "pull" = true) :
    _load_storage_config env (.dict m) =
      .ok (mkStorageConfig env (subDict m "storage") (subDict (subDict m "storage") "formats")
        (subDict (subDict m "storage") "local") (subDict (subDict m "storage") "remote")
        (subDict (subDict m "storage") "pull")) := by
  unfold _load_storage_config
  rw [show yAttrGet (YVal.dict m) "storage" (.dict []) =
    .ok (yLookupD m "storage" (.dict [])) from rfl, ok_bind, dictOk_asDict h1, ok_bind,
    dictOk_asDict h2, ok_bind, dictOk_asDict h3, ok_bind, dictOk_asDict h4, ok_bind,
    dictOk_asDict h5, ok_bind]
  rfl

theorem _load_webhook_config_ok {env : Env} {m : List (String × YVal)}
    (h1 : dictOk m "notification" = true)
    (h2 : dictOk (subDict m "notification") "webhooks" = true) :
    _load_webhook_config env (.dict m) =
      .ok (mkWebhookConfig env (subDict (subDict m "notification") "webhooks")) := by
  unfold _load_webhook_config
  rw [show yAttrGet (YVal.dict m) "notification" (.dict []) =
    .ok (yLookupD m "notification" (.dict [])) from rfl, ok_bind, dictOk_asDict h1, ok_bind,
    dictOk_asDict h2, ok_bind]
  rfl

theorem ite_ok {ε α : Type} {c : Prop} [Decidable c] {x y : Except ε α}
    (hx : ∃ a, x = .ok a) (hy : ∃ a, y = .ok a) : ∃ a, (if c then x else y) = .ok a := by
  by_cases hc : c
  · rw [if_pos hc]
    exact hx
  · rw [if_neg hc]
    exact hy

theorem pyMin_ok {M : YVal} (hM : (∃ k : Int, M = .i k) ∨ (∃ b : Bool, M = .b b))
    (a : Int) : ∃ r, pyMin a M = .ok r := by
  rcases hM with ⟨k, rfl⟩ | ⟨b, rfl⟩
  · exact ⟨_, rfl⟩
  · exact ⟨_, rfl⟩

theorem channelPart_ok {label envKey : String} {env : Env} {M u : YVal}
    (hu : ∃ s, u = .s s) (hM : (∃ k : Int, M = .i k) ∨ (∃ b : Bool, M = .b b)) :
    ∃ ls, channelPart label envKey env M u = .ok ls := by
  obtain ⟨s, rfl⟩ := hu
  unfold channelPart
  apply ite_ok
  · obtain ⟨r, hr⟩ := pyMin_ok hM ((parse_multi_account_config s).length : Int)
    rw [show parseAccountsY (YVal.s s) = .ok (parse_multi_account_config s) from rfl,
      ok_bind, hr, ok_bind]
    exact ⟨_, rfl⟩
  · exact ⟨[], rfl⟩

theorem telegramPart_ok {env : Env} {M bt ct : YVal}
    (hb : ∃ s, bt = .s s) (hc : ∃ s, ct = .s s)
    (hM : (∃ k : Int, M = .i k) ∨ (∃ b : Bool, M = .b b)) :
    ∃ ls, telegramPart env M bt ct = .ok ls := by
  obtain ⟨tb, rfl⟩ := hb
  obtain ⟨cb, rfl⟩ := hc
  unfold telegramPart
  apply ite_ok
  · rw [show parseAccountsY (YVal.s tb) = .ok (parse_multi_account_config tb) from rfl,
      ok_bind,
      show parseAccountsY (YVal.s cb) = .ok (parse_multi_account_config cb) from rfl,
      ok_bind]
    dsimp only
    apply ite_ok
    · obtain ⟨r, hr⟩ := pyMin_ok hM _
      rw [hr, ok_bind]
      exact ⟨_, rfl⟩
    · exact ⟨[], rfl⟩
  · exact ⟨[], rfl⟩

theorem emailPart_ok {env : Env} {f p t : YVal} : ∃ ls, emailPart env f p t = .ok ls := by
  unfold emailPart
  apply ite_ok
  · exact ⟨_, rfl⟩
  · exact ⟨[], rfl⟩

theorem ntfyPart_ok {env : Env} {M srv tp tk : YVal}
    (htp : ∃ s, tp = .s s) (htk : ∃ s, tk = .s s)
    (hM : (∃ k : Int, M = .i k) ∨ (∃ b : Bool, M = .b b)) :
    ∃ ls, ntfyPart env M srv tp tk = .ok ls := by
  obtain ⟨t, rfl⟩ := htp
  obtain ⟨k, rfl⟩ := htk
  unfold ntfyPart
  apply ite_ok
  · rw [show parseAccountsY (YVal.s t) = .ok (parse_multi_account_config t) from rfl,
      ok_bind,
      show parseAccountsY (YVal.s k) = .ok (parse_multi_account_config k) from rfl,
      ok_bind]
    dsimp only
    apply ite_ok
    · apply ite_ok
      · obtain ⟨r, hr⟩ := pyMin_ok hM _
        rw [hr, ok_bind]
        exact ⟨_, rfl⟩
      · exact ⟨[], rfl⟩
    · obtain ⟨r, hr⟩ := pyMin_ok hM _
      rw [hr, ok_bind]
      exact ⟨_, rfl⟩
  · exact ⟨[], rfl⟩

/-- A webhook field resolved by the `pyOrStr` pattern is a string whenever
the file value is a string or absent. -/
theorem resolvedStr_isString {env : Env} {key fk : String} {wsec : List (String × YVal)}
    (h : strOk wsec fk = true) :
    ∃ u, pyOrStr (_get_env_str env key "") (yLookupD wsec fk (.s "")) = .s u := by
  unfold pyOrStr
  split
  · exact ⟨_, rfl⟩
  · unfold strOk at h
    unfold yLookupD
    cases hl : List.lookup fk wsec with
    | none => exact ⟨"", rfl⟩
    | some v =>
      rw [hl] at h
      cases v <;> simp_all

/-- The resolved account cap is an int or bool whenever the file value is. -/
theorem resolvedMax_intLike {env : Env} {nsec : List (String × YVal)}
    (h : intLikeOk nsec "max_accounts_per_channel" = true) :
    (∃ k : Int, (mkNotifConfig env nsec).MAX_ACCOUNTS_PER_CHANNEL = .i k) ∨
    (∃ b : Bool, (mkNotifConfig env nsec).MAX_ACCOUNTS_PER_CHANNEL = .b b) := by
  simp only [mkNotifConfig]
  unfold pyOrInt
  split
  · exact Or.inl ⟨_, rfl⟩
  · unfold intLikeOk at h
    unfold yLookupD
    cases hl : List.lookup "max_accounts_per_channel" nsec with
    | none => exact Or.inl ⟨3, rfl⟩
    | some v =>
      rw [hl] at h
      cases v <;> simp_all

theorem pure_bind_except {ε α β : Type} {a : α} {f : α → Except ε β} :
    ((pure a : Except ε α) >>= f) = f a := rfl

/-- C1 (counterexample): an empty config file exists but still raises —
`yaml.safe_load` returns `None` for empty content, and the first section
access (`config_data.get("app", {})`) then raises `AttributeError` — so an
existing path does not guarantee that `load_config` returns a configuration
dictionary. -/
theorem loadConfigEmptyFile_counterexample :
    (fun _ : String => FileOutcome.parsed YVal.none) "config/config.yaml" ≠
      FileOutcome.absent ∧
    load_config [] (fun _ => FileOutcome.parsed YVal.none) Option.none =
      .error .attributeError := by
  constructor
  · exact fun hc => FileOutcome.noConfusion hc
  · rfl

/-- C1 (corrected): `load_config` raises `FileNotFoundError` whenever the
resolved path does not exist; an existing file is *not* always safe — empty
or non-mapping content raises — but any existing file whose parsed content
is a mapping with mapping-typed (or absent) sections, string-typed (or
absent) webhook account fields, and an int/bool (or absent) account cap
loads and returns without raising. -/
theorem loadConfigErrorBehavior :
    (∀ (env : Env) (fs : String → FileOutcome) (p : Option String),
        fs (resolveConfigPath env p) = .absent →
        load_config env fs p = .error .fileNotFoundError) ∧
    (∀ (env : Env) (fs : String → FileOutcome) (p : Option String) (cfgData : YVal),
        fs (resolveConfigPath env p) = .parsed cfgData →
        configShapeOk cfgData = true →
        (load_config env fs p).isOk = true) := by
  constructor
  · intro env fs p h
    unfold load_config
    dsimp only
    rw [h]
  · intro env fs p cfgData hfs hshape
    cases cfgData with
    | dict m =>
      unfold configShapeOk at hshape
      simp only [Bool.and_eq_true] at hshape
      obtain ⟨hshape, hq23⟩ := hshape
      obtain ⟨hshape, hq22⟩ := hshape
      obtain ⟨hshape, hq21⟩ := hshape
      obtain ⟨hshape, hq20⟩ := hshape
      obtain ⟨hshape, hq19⟩ := hshape
      obtain ⟨hshape, hq18⟩ := hshape
      obtain ⟨hshape, hq17⟩ := hshape
      obtain ⟨hshape, hq16⟩ := hshape
      obtain ⟨hshape, hq15⟩ := hshape
      obtain ⟨hshape, hq14⟩ := hshape
      obtain ⟨hshape, hq13⟩ := hshape
      obtain ⟨hshape, hq12⟩ := hshape
      obtain ⟨hshape, hq11⟩ := hshape
      obtain ⟨hshape, hq10⟩ := hshape
      obtain ⟨hshape, hq9⟩ := hshape
      obtain ⟨hshape, hq8⟩ := hshape
      obtain ⟨hshape, hq7⟩ := hshape
      obtain ⟨hshape, hq6⟩ := hshape
      obtain ⟨hshape, hq5⟩ := hshape
      obtain ⟨hshape, hq4⟩ := hshape
      obtain ⟨hshape, hq3⟩ := hshape
      obtain ⟨hq1, hq2⟩ := hshape
      have hM := @resolvedMax_intLike env _ hq10
      obtain ⟨p1, hp1⟩ := @channelPart_ok "飞书" "FEISHU_WEBHOOK_URL" env _ _
        (@resolvedStr_isString env "FEISHU_WEBHOOK_URL" _ _ hq11) hM
      obtain ⟨p2, hp2⟩ := @channelPart_ok "钉钉" "DINGTALK_WEBHOOK_URL" env _ _
        (@resolvedStr_isString env "DINGTALK_WEBHOOK_URL" _ _ hq12) hM
      obtain ⟨p3, hp3⟩ := @channelPart_ok "企业微信" "WEWORK_WEBHOOK_URL" env _ _
        (@resolvedStr_isString env "WEWORK_WEBHOOK_URL" _ _ hq13) hM
      obtain ⟨p4, hp4⟩ := @telegramPart_ok env _ _ _
        (@resolvedStr_isString env "TELEGRAM_BOT_TOKEN" _ _ hq14)
        (@resolvedStr_isString env "TELEGRAM_CHAT_ID" _ _ hq15) hM
      obtain ⟨p5, hp5⟩ := @emailPart_ok env
        (pyOrStr (_get_env_str env "EMAIL_FROM")
          (yLookupD (subDict (subDict m "notification") "webhooks") "email_from" (.s "")))
        (pyOrStr (_get_env_str env "EMAIL_PASSWORD")
          (yLookupD (subDict (subDict m "notification") "webhooks") "email_password" (.s "")))
        (pyOrStr (_get_env_str env "EMAIL_TO")
          (yLookupD (subDict (subDict m "notification") "webhooks") "email_to" (.s "")))
      obtain ⟨p6, hp6⟩ := @ntfyPart_ok env _
        (pyOr3 (_get_env_str env "NTFY_SERVER_URL")
          (yLookupD (subDict (subDict m "notification") "webhooks") "ntfy_server_url" .none)
          "https://ntfy.sh") _ _
        (@resolvedStr_isString env "NTFY_TOPIC" _ _ hq16)
        (@resolvedStr_isString env "NTFY_TOKEN" _ _ hq17) hM
      obtain ⟨p7, hp7⟩ := @channelPart_ok "Bark" "BARK_URL" env _ _
        (@resolvedStr_isString env "BARK_URL" _ _ hq18) hM
      obtain ⟨p8, hp8⟩ := @channelPart_ok "Slack" "SLACK_WEBHOOK_URL" env _ _
        (@resolvedStr_isString env "SLACK_WEBHOOK_URL" _ _ hq19) hM
      unfold load_config
      dsimp only
      rw [hfs]
      dsimp only
      rw [_load_app_config_ok hq1, ok_bind, _load_crawler_config_ok hq2, ok_bind,
        _load_report_config_ok hq3, ok_bind, _load_notification_config_ok hq5, ok_bind,
        _load_push_window_config_ok hq5 hq7 hq8, ok_bind, _load_weight_config_ok hq4,
        ok_bind,
        show yAttrGet (YVal.dict m) "platforms" (.list []) =
          .ok (yLookupD m "platforms" (.list [])) from rfl, ok_bind,
        _load_storage_config_ok hq6 hq20 hq21 hq22 hq23, ok_bind,
        _load_webhook_config_ok hq5 hq9, ok_bind]
      unfold _print_notification_sources
      dsimp only
      simp only [mkWebhookConfig]
      unfold feishuPart dingtalkPart weworkPart barkPart slackPart
      rw [hp1, ok_bind, hp2, ok_bind, hp3, ok_bind, hp4, ok_bind, hp5, ok_bind, hp6,
        ok_bind, hp7, ok_bind, hp8, ok_bind, pure_bind_except]
      rfl
    | none => exact absurd hshape (by simp [configShapeOk])
    | b v => exact absurd hshape (by simp [configShapeOk])
    | i v => exact absurd hshape (by simp [configShapeOk])
    | s v => exact absurd hshape (by simp [configShapeOk])
    | flt v => exact absurd hshape (by simp [configShapeOk])
    | list vs => exact absurd hshape (by simp [configShapeOk])

/-- A well-shaped sample configuration exercising several channels. -/
def sampleYaml : YVal :=
  .dict [("notification", .dict [("max_accounts_per_channel", .i 2), ("webhooks",
    .dict [("feishu_url", .s "u1,u2,u3"), ("email_from", .s "a@b"),
      ("email_password", .s "p"), ("email_to", .s "c@d")])])]

/-- Witness for C1 (corrected): a missing file raises `FileNotFoundError`
and a well-shaped existing file loads successfully. -/
theorem loadConfigErrorBehavior_witness :
    load_config [] (fun _ => FileOutcome.absent) Option.none =
      .error .fileNotFoundError ∧
    (load_config [] (fun _ => FileOutcome.parsed sampleYaml) Option.none).isOk = true := by
  constructor
  · exact loadConfigErrorBehavior.1 [] _ Option.none rfl
  · exact loadConfigErrorBehavior.2 [] _ Option.none sampleYaml rfl (by decide)

end TrendRadar
